import Mathlib

/-!
# Header resolver of the data-retriever layer

A shallow embedding of `dataRetriever/resolvers/headerResolver.go`, followed
by one of the shard factory that builds the resolvers and fills the container
(`shardResolversContainerFactory.go`).

The resolver only talks to collaborators through interfaces.  Every
collaborator is a record of functions, and every method of the resolver
returns, next to its Go result, the list of collaborator calls it made, in
the order it made them.  Statements about "reads nothing", "sends exactly
once" and the like are statements about that list.

Conventions
* a Go `[]byte` is `Option (List Nat)`: `none` is the nil slice, `some bs` a
  non-nil slice, `some []` the non-nil slice of length zero;
* a Go `error` result is `Option Error`, `none` being the nil error;
* a Go result pair `([]byte, error)` is kept as a pair, because the callers
  in this file look at both components independently;
* `uint32` and `uint64` values are natural numbers, no arithmetic is done on
  them in this file;
* calls to the logger are left out.
-/

namespace ElrondGo

/-! ## Data model -/

/-- Go byte slice, `none` being the nil slice. -/
abbrev ByteSlice := Option (List Nat)

/-- Go builtin `len` on a byte slice: the nil slice has length zero. -/
def len (b : ByteSlice) : Nat :=
  match b with
  | none => 0
  | some bs => bs.length

/-- Go conversion `[]byte(s)` of a string: never the nil slice. -/
def bytesOfString (s : String) : ByteSlice :=
  some (s.toUTF8.data.toList.map UInt8.toNat)

/-- Peer identifier `p2p.PeerID`. -/
abbrev PeerID := String

/-- Errors the resolver can return.  The constructors up to
`ErrNilAntifloodHandler` are the sentinel errors the source refers to; the
next three are the errors of the container as the spec names them; `other`
stands for any error value produced by a collaborator. -/
inductive Error where
  | ErrNilValue
  | ErrResolveTypeUnknown
  | ErrInvalidNonceByteSlice
  | ErrNilEpochHandler
  | ErrNilResolverSender
  | ErrNilHeadersDataPool
  | ErrNilHeadersNoncesDataPool
  | ErrNilHeadersStorage
  | ErrNilHeadersNoncesStorage
  | ErrNilMarshalizer
  | ErrNilUint64ByteSliceConverter
  | ErrNilShardCoordinator
  | ErrNilAntifloodHandler
  | DuplicateRegistration
  | NotFound
  | LengthMismatch
  | other (msg : String)
  deriving DecidableEq, Repr

/-- Modelled from the spec: the declaration of `dataRetriever.RequestDataType`
is not among the sources.  The three named kinds are the ones the spec lists
and the dispatch switch tests; every other wire value is `unknown`. -/
inductive RequestDataType where
  | HashType
  | NonceType
  | EpochType
  | unknown (code : Nat)
  deriving DecidableEq, Repr

/-- Request descriptor `dataRetriever.RequestData`; the Go field `Type` is
`Kind` here. -/
structure RequestData where
  Kind : RequestDataType
  Value : ByteSlice
  deriving DecidableEq, Repr

/-- Inbound message `p2p.MessageP2P`, reduced to the two accessors the
resolver and its decoder use: `Data()` and `Peer()`. -/
structure MessageP2P where
  Data : ByteSlice
  Peer : PeerID
  deriving DecidableEq, Repr

/-- One call to a collaborator. -/
inductive Event (Obj : Type) where
  | CanProcessMessage (message : MessageP2P) (fromConnectedPeer : PeerID)
  | CanProcessMessageOnTopic (message : MessageP2P) (fromConnectedPeer : PeerID) (topic : String)
  | Unmarshal (message : MessageP2P)
  | headersPeek (key : ByteSlice)
  | Marshal (value : Obj)
  | hdrStorageGet (key : ByteSlice)
  | hdrNoncesStorageGet (key : ByteSlice)
  | ToUint64 (key : ByteSlice)
  | hdrNoncesGet (nonce : Nat)
  | Epoch
  | Send (buff : ByteSlice) (peer : PeerID)
  | ToByteSlice (nonce : Nat)
  | SendOnRequestTopic (rd : RequestData)
  deriving DecidableEq, Repr

/-- Call log of one method invocation. -/
abbrev Trace (Obj : Type) := List (Event Obj)

/-! ## Collaborator interfaces -/

/-- The part of `dataRetriever.TopicResolverSender` the resolver uses. -/
structure TopicResolverSender where
  SendOnRequestTopic : RequestData → Option Error
  Send : ByteSlice → PeerID → Option Error
  TopicRequestSuffix : String
  TargetShardID : Nat

/-- Header cache `storage.Cacher`: `Peek` returns `(value, ok)`; `none` is
`ok = false`. -/
structure Cacher (Obj : Type) where
  Peek : ByteSlice → Option Obj

/-- Per-nonce table `dataRetriever.ShardIdHashMap`, as the sequence of
`(shardId, hash)` pairs in the order `Range` visits them. -/
abbrev ShardIdHashMap := List (Nat × ByteSlice)

/-- Method `ShardIdHashMap.Range`: calls `f` on the entries in turn and stops at
the first call that returns `false`.  The closure's captured variables are
the state `s`. -/
def ShardIdHashMap.Range {σ : Type} (m : ShardIdHashMap) (f : Nat → ByteSlice → σ → σ × Bool)
    (s : σ) : σ :=
  match m with
  | [] => s
  | (shardId, hash) :: rest =>
    match f shardId hash s with
    | (s1, true) => ShardIdHashMap.Range rest f s1
    | (s1, false) => s1

/-- In-memory nonce index `dataRetriever.Uint64SyncMapCacher`: `Get` returns
`(value, ok)`. -/
structure Uint64SyncMapCacher where
  Get : Nat → Option ShardIdHashMap

/-- Persistent store `storage.Storer`. -/
structure Storer where
  Get : ByteSlice → ByteSlice × Option Error

/-- Codec `marshal.Marshalizer`.  `UnmarshalRequestData` stands for
`rd.Unmarshal(marshalizer, message)` on a fresh descriptor, whose body is not
among the sources: it either fails or yields the decoded descriptor. -/
structure Marshalizer (Obj : Type) where
  Marshal : Obj → ByteSlice × Option Error
  UnmarshalRequestData : MessageP2P → Except Error RequestData

/-- Converter `typeConverters.Uint64ByteSliceConverter`. -/
structure Uint64ByteSliceConverter where
  ToUint64 : ByteSlice → Nat × Option Error
  ToByteSlice : Nat → ByteSlice

/-- Provider `dataRetriever.EpochHandler`: the value `Epoch()` returns when it is
called. -/
structure EpochHandler where
  Epoch : Nat

/-- Shard coordinator `sharding.Coordinator`. -/
structure Coordinator where
  SelfId : Nat
  NumberOfShards : Nat
  CommunicationIdentifier : Nat → String

/-- Flood control `dataRetriever.P2PAntifloodHandler`. -/
structure P2PAntifloodHandler where
  CanProcessMessage : MessageP2P → PeerID → Option Error
  CanProcessMessageOnTopic : MessageP2P → PeerID → String → Option Error

/-- The two functions of package `core` the resolver calls; their bodies are not
among the sources, so they are parameters. -/
structure Core where
  IsUnknownEpochIdentifier : ByteSlice → Bool × Option Error
  EpochStartIdentifier : Nat → String

/-- Constant `factory.ShardBlocksTopic`. -/
def ShardBlocksTopic : String := "shardBlocks"

/-- Constant `factory.MetachainBlocksTopic`. -/
def MetachainBlocksTopic : String := "metachainBlocks"

/-- The resolver `HeaderResolver`. -/
structure HeaderResolver (Obj : Type) where
  TopicResolverSender : TopicResolverSender
  headers : Cacher Obj
  hdrNonces : Uint64SyncMapCacher
  hdrStorage : Storer
  hdrNoncesStorage : Storer
  marshalizer : Marshalizer Obj
  nonceConverter : Uint64ByteSliceConverter
  epochHandler : EpochHandler
  shardCoordinator : Coordinator
  antifloodHandler : P2PAntifloodHandler

/-! ## Methods of the resolver -/

section Methods

variable {Obj : Type}

/-- Method `topicNameForAntiflood`. -/
def topicNameForAntiflood (hdrRes : HeaderResolver Obj) : String :=
  let pfx :=
    if hdrRes.shardCoordinator.SelfId > hdrRes.shardCoordinator.NumberOfShards then
      MetachainBlocksTopic
    else
      ShardBlocksTopic
  let commIdentifier :=
    hdrRes.shardCoordinator.CommunicationIdentifier hdrRes.shardCoordinator.SelfId
  let suffix := hdrRes.TopicResolverSender.TopicRequestSuffix
  pfx ++ commIdentifier ++ suffix

/-- Method `resolveHeaderFromHash`: resolves a header using its key (header hash). -/
def resolveHeaderFromHash (hdrRes : HeaderResolver Obj) (key : ByteSlice) :
    (ByteSlice × Option Error) × Trace Obj :=
  match hdrRes.headers.Peek key with
  | none => (hdrRes.hdrStorage.Get key, [.headersPeek key, .hdrStorageGet key])
  | some value =>
    match hdrRes.marshalizer.Marshal value with
    | (_, some err) => ((none, some err), [.headersPeek key, .Marshal value])
    | (buff, none) => ((buff, none), [.headersPeek key, .Marshal value])

/-- The closure passed to `value.Range` in `resolveHeaderFromNonce`; the captured
variable is `hash`. -/
def rangeBody (hdrRes : HeaderResolver Obj) (shardId : Nat) (existingHash : ByteSlice)
    (hash : ByteSlice) : ByteSlice × Bool :=
  if shardId = hdrRes.TopicResolverSender.TargetShardID then
    (existingHash, false)
  else
    (hash, true)

/-- Method `resolveHeaderFromNonce`. -/
def resolveHeaderFromNonce (hdrRes : HeaderResolver Obj) (key : ByteSlice) :
    (ByteSlice × Option Error) × Trace Obj :=
  -- the error of the nonce store is only logged
  match hdrRes.hdrNoncesStorage.Get key with
  | (some h, _) =>
    let r := resolveHeaderFromHash hdrRes (some h)
    (r.1, .hdrNoncesStorageGet key :: r.2)
  | (none, _) =>
    match hdrRes.nonceConverter.ToUint64 key with
    | (_, some _) =>
      ((none, some .ErrInvalidNonceByteSlice), [.hdrNoncesStorageGet key, .ToUint64 key])
    | (nonceBytes, none) =>
      let hash : ByteSlice :=
        match hdrRes.hdrNonces.Get nonceBytes with
        | some value => ShardIdHashMap.Range value (rangeBody hdrRes) none
        | none => none
      if len hash = 0 then
        ((none, none), [.hdrNoncesStorageGet key, .ToUint64 key, .hdrNoncesGet nonceBytes])
      else
        let r := resolveHeaderFromHash hdrRes hash
        (r.1, [.hdrNoncesStorageGet key, .ToUint64 key, .hdrNoncesGet nonceBytes] ++ r.2)

/-- Method `resolveHeaderFromEpoch`: resolves a header using its key based on
epoch. -/
def resolveHeaderFromEpoch (core : Core) (hdrRes : HeaderResolver Obj) (key : ByteSlice) :
    (ByteSlice × Option Error) × Trace Obj :=
  match core.IsUnknownEpochIdentifier key with
  | (_, some err) => ((none, some err), [])
  | (true, none) =>
    let actualKey := bytesOfString (core.EpochStartIdentifier hdrRes.epochHandler.Epoch)
    (hdrRes.hdrStorage.Get actualKey, [.Epoch, .hdrStorageGet actualKey])
  | (false, none) =>
    (hdrRes.hdrStorage.Get key, [.hdrStorageGet key])

/-- Method `parseReceivedMessage`: transforms the received message in a
`RequestData` object. -/
def parseReceivedMessage (hdrRes : HeaderResolver Obj) (message : MessageP2P) :
    Except Error RequestData × Trace Obj :=
  match hdrRes.marshalizer.UnmarshalRequestData message with
  | .error err => (.error err, [.Unmarshal message])
  | .ok rd =>
    match rd.Value with
    | none => (.error .ErrNilValue, [.Unmarshal message])
    | some _ => (.ok rd, [.Unmarshal message])

/-- Method `ProcessReceivedMessage`: the callback of the messenger, called each
time a message is received on the topic the resolver is registered to. -/
def ProcessReceivedMessage (core : Core) (hdrRes : HeaderResolver Obj) (message : MessageP2P)
    (fromConnectedPeer : PeerID) : Option Error × Trace Obj :=
  match hdrRes.antifloodHandler.CanProcessMessage message fromConnectedPeer with
  | some err => (some err, [.CanProcessMessage message fromConnectedPeer])
  | none =>
    let gate : Trace Obj :=
      [.CanProcessMessage message fromConnectedPeer,
       .CanProcessMessageOnTopic message fromConnectedPeer (topicNameForAntiflood hdrRes)]
    match hdrRes.antifloodHandler.CanProcessMessageOnTopic message fromConnectedPeer
        (topicNameForAntiflood hdrRes) with
    | some err => (some err, gate)
    | none =>
      match parseReceivedMessage hdrRes message with
      | (.error err, t) => (some err, gate ++ t)
      | (.ok rd, t) =>
        let resolved : Option ((ByteSlice × Option Error) × Trace Obj) :=
          match rd.Kind with
          | .HashType => some (resolveHeaderFromHash hdrRes rd.Value)
          | .NonceType => some (resolveHeaderFromNonce hdrRes rd.Value)
          | .EpochType => some (resolveHeaderFromEpoch core hdrRes rd.Value)
          | .unknown _ => none
        match resolved with
        | none => (some .ErrResolveTypeUnknown, gate ++ t)
        | some ((_, some err), u) => (some err, gate ++ t ++ u)
        | some ((none, none), u) => (none, gate ++ t ++ u)
        | some ((some buff, none), u) =>
          (hdrRes.TopicResolverSender.Send (some buff) message.Peer,
            gate ++ t ++ u ++ [.Send (some buff) message.Peer])

/-- Method `RequestDataFromHash`: requests a header from other peers having input
the hdr hash. -/
def RequestDataFromHash (hdrRes : HeaderResolver Obj) (hash : ByteSlice) :
    Option Error × Trace Obj :=
  let rd : RequestData := { Kind := .HashType, Value := hash }
  (hdrRes.TopicResolverSender.SendOnRequestTopic rd, [.SendOnRequestTopic rd])

/-- Method `RequestDataFromNonce`: requests a header from other peers having input
the hdr nonce. -/
def RequestDataFromNonce (hdrRes : HeaderResolver Obj) (nonce : Nat) :
    Option Error × Trace Obj :=
  let rd : RequestData :=
    { Kind := .NonceType, Value := hdrRes.nonceConverter.ToByteSlice nonce }
  (hdrRes.TopicResolverSender.SendOnRequestTopic rd,
    [.ToByteSlice nonce, .SendOnRequestTopic rd])

/-- Method `RequestDataFromEpoch`: requests a header from other peers having input
the epoch. -/
def RequestDataFromEpoch (hdrRes : HeaderResolver Obj) (identifier : ByteSlice) :
    Option Error × Trace Obj :=
  let rd : RequestData := { Kind := .EpochType, Value := identifier }
  (hdrRes.TopicResolverSender.SendOnRequestTopic rd, [.SendOnRequestTopic rd])

/-- Constructor `NewHeaderResolver`.  An argument that `check.IfNil` finds nil is
`none`.  The type `nilEpochHandler` of the default epoch handler is declared
outside the sources, so the handler value it stands for is the first
parameter. -/
def NewHeaderResolver (nilEpochHandler : EpochHandler)
    (senderResolver : Option TopicResolverSender)
    (headers : Option (Cacher Obj))
    (headersNonces : Option Uint64SyncMapCacher)
    (hdrStorage : Option Storer)
    (headersNoncesStorage : Option Storer)
    (marshalizer : Option (Marshalizer Obj))
    (nonceConverter : Option Uint64ByteSliceConverter)
    (shardCoordinator : Option Coordinator)
    (antifloodHandler : Option P2PAntifloodHandler) : Except Error (HeaderResolver Obj) :=
  match senderResolver with
  | none => .error .ErrNilResolverSender
  | some senderResolver =>
  match headers with
  | none => .error .ErrNilHeadersDataPool
  | some headers =>
  match headersNonces with
  | none => .error .ErrNilHeadersNoncesDataPool
  | some headersNonces =>
  match hdrStorage with
  | none => .error .ErrNilHeadersStorage
  | some hdrStorage =>
  match headersNoncesStorage with
  | none => .error .ErrNilHeadersNoncesStorage
  | some headersNoncesStorage =>
  match marshalizer with
  | none => .error .ErrNilMarshalizer
  | some marshalizer =>
  match nonceConverter with
  | none => .error .ErrNilUint64ByteSliceConverter
  | some nonceConverter =>
  match shardCoordinator with
  | none => .error .ErrNilShardCoordinator
  | some shardCoordinator =>
  match antifloodHandler with
  | none => .error .ErrNilAntifloodHandler
  | some antifloodHandler =>
    .ok
      { TopicResolverSender := senderResolver
        headers := headers
        hdrNonces := headersNonces
        hdrStorage := hdrStorage
        hdrNoncesStorage := headersNoncesStorage
        marshalizer := marshalizer
        nonceConverter := nonceConverter
        epochHandler := nilEpochHandler
        shardCoordinator := shardCoordinator
        antifloodHandler := antifloodHandler }

/-- Method `SetEpochHandler`: sets the epoch handler for this component.  Returns
the error and the resolver as it is after the call. -/
def SetEpochHandler (hdrRes : HeaderResolver Obj) (epochHandler : Option EpochHandler) :
    Option Error × HeaderResolver Obj :=
  match epochHandler with
  | none => (some .ErrNilEpochHandler, hdrRes)
  | some epochHandler => (none, { hdrRes with epochHandler := epochHandler })

end Methods

/-! ## Observations on a call log -/

section Observations

variable {Obj : Type}

/-- The event is a `Send`. -/
def Event.isSend : Event Obj → Bool
  | .Send _ _ => true
  | _ => false

/-- The event is a read of the header cache. -/
def Event.isHeadersRead : Event Obj → Bool
  | .headersPeek _ => true
  | _ => false

/-- The event is a read of header storage. -/
def Event.isHdrStorageRead : Event Obj → Bool
  | .hdrStorageGet _ => true
  | _ => false

/-- The event is a read of the nonce-hash storage. -/
def Event.isHdrNoncesStorageRead : Event Obj → Bool
  | .hdrNoncesStorageGet _ => true
  | _ => false

/-- The event is a read of the in-memory nonce index. -/
def Event.isHdrNoncesRead : Event Obj → Bool
  | .hdrNoncesGet _ => true
  | _ => false

/-- The event is a call of `Marshal`. -/
def Event.isMarshal : Event Obj → Bool
  | .Marshal _ => true
  | _ => false

/-- The event is the decoding of the message. -/
def Event.isUnmarshal : Event Obj → Bool
  | .Unmarshal _ => true
  | _ => false

/-- The event is the per-topic flood check. -/
def Event.isTopicCheck : Event Obj → Bool
  | .CanProcessMessageOnTopic _ _ _ => true
  | _ => false

/-- The event reads the header cache, header storage, the nonce-hash storage or
the nonce index. -/
def Event.isRead (e : Event Obj) : Bool :=
  e.isHeadersRead || e.isHdrStorageRead || e.isHdrNoncesStorageRead || e.isHdrNoncesRead

/-- The event is a call of the converter `ToUint64`. -/
def Event.isToUint64 : Event Obj → Bool
  | .ToUint64 _ => true
  | _ => false

/-- The event is a call of `SendOnRequestTopic`. -/
def Event.isSendOnRequestTopic : Event Obj → Bool
  | .SendOnRequestTopic _ => true
  | _ => false

/-- The event is a call of `Epoch` on the epoch handler. -/
def Event.isEpoch : Event Obj → Bool
  | .Epoch => true
  | _ => false

/-- Number of `Send` calls in a log. -/
def sendCount (t : Trace Obj) : Nat := t.countP Event.isSend

end Observations

/-! ## The shard resolvers container factory

A shallow embedding of
`dataRetriever/factory/resolverscontainer/shardResolversContainerFactory.go`.

The container, the base factory and the constructors of senders, peer lists
and resolvers are declared outside that file.  The constructors and the
constants are parameters; the objects they return are values of the abstract
types `PLC` (peer list creators), `S` (senders) and `R` (resolvers).  A
method of the factory returns its error next to the state of the factory
after the call: the container, and the log of the calls to
`NewTopicResolverSender` and `createTopicAndAssignHandler` made by the
methods of this file.  A storer `store.GetStorer(unit)` is named by its unit,
a pool `dataPools.X()` by `X`; the messenger, the marshalizer, the
randomizer and the converter, which are the same in every call, are left out
of the argument lists.  The factory file calls `resolvers.NewHeaderResolver`
with six arguments while the constructor in `headerResolver.go` takes nine;
the call is kept as the factory file has it.
-/

section Factory

variable {PLC S R : Type}

/-- Modelled from the spec: the container `containers.ResolversContainer` is not
among the sources.  By §4.1 it maps topics to resolvers; the list holds the
entries, newest first, with no topic twice. -/
structure ResolversContainer (R : Type) where
  objects : List (String × R)

/-- Modelled from the spec: `get(topic)` of the container, which is not among the
sources, "returns the resolver or a not-found error". -/
def ResolversContainer.Get (c : ResolversContainer R) (key : String) : Except Error R :=
  match c.objects.lookup key with
  | some resolver => .ok resolver
  | none => .error .NotFound

/-- Modelled from the spec: `add(topic, resolver)` of the container, which is not
among the sources, "fails if topic already present". -/
def ResolversContainer.Add (c : ResolversContainer R) (key : String) (resolver : R) :
    Option Error × ResolversContainer R :=
  match c.objects.lookup key with
  | some _ => (some .DuplicateRegistration, c)
  | none => (none, { objects := (key, resolver) :: c.objects })

/-- Modelled from the spec: the loop of `addMultiple`, which adds the entries in
turn and stops at the first topic already present, the entries before it
staying added. -/
def ResolversContainer.addEach (c : ResolversContainer R) :
    List String → List R → Option Error × ResolversContainer R
  | key :: keys, resolver :: resolvers =>
    match c.Add key resolver with
    | (some err, c1) => (some err, c1)
    | (none, c1) => ResolversContainer.addEach c1 keys resolvers
  | _, _ => (none, c)

/-- Modelled from the spec: `addMultiple(topics[], resolvers[])` of the container,
which is not among the sources, "fails if lengths mismatch or any topic
already present". -/
def ResolversContainer.AddMultiple (c : ResolversContainer R) (keys : List String)
    (resolvers : List R) : Option Error × ResolversContainer R :=
  if keys.length ≠ resolvers.length then (some .LengthMismatch, c)
  else c.addEach keys resolvers

/-- Names of the storage units `dataRetriever.UnitType` the factory file refers to.
Their numeric values are declared outside the sources;
`ShardHdrNonceHashDataUnit shardId` is
`ShardHdrNonceHashDataUnit + UnitType(shardId)`. -/
inductive UnitType where
  | TransactionUnit
  | UnsignedTransactionUnit
  | RewardTransactionUnit
  | BlockHeaderUnit
  | ShardHdrNonceHashDataUnit (shardId : Nat)
  | PeerChangesUnit
  | MetaBlockUnit
  | MetaHdrNonceHashDataUnit
  deriving DecidableEq, Repr

/-- Names of the pools of `dataPools` the factory file refers to. -/
inductive DataPool where
  | Transactions
  | UnsignedTransactions
  | RewardTransactions
  | Headers
  | MiniBlocks
  deriving DecidableEq, Repr

/-- Names of the trie roles of package `triesFactory` the factory file refers to. -/
inductive TrieType where
  | UserAccountTrie
  | PeerAccountTrie
  deriving DecidableEq, Repr

/-- Modelled from the spec: the constant `emptyExcludePeersOnTopic` of the base
factory is not among the sources; "empty-exclusion configuration means no
filtering". -/
def emptyExcludePeersOnTopic : String := ""

/-- What the factory file uses and does not declare: constants of packages
`sharding` and `factory`, constructors of packages `topicResolverSender` and
`resolvers`, the accessor `TopicRequestSuffix` of a sender, and methods of the
base factory.  `txResolvers` and `miniBlocksResolvers` are the keys and
resolvers that `generateTxResolvers` and `generateMiniBlocksResolvers` of the
base factory build before they add them to the container. -/
structure FactoryExternals (PLC S R : Type) where
  MetachainShardId : Nat
  TransactionTopic : String
  UnsignedTransactionTopic : String
  RewardsTransactionTopic : String
  PeerChBodyTopic : String
  AccountTrieNodesTopic : String
  ValidatorTrieNodesTopic : String
  NewDiffPeerListCreator : String → String → Except Error PLC
  NewTopicResolverSender : String → PLC → Nat → Except Error S
  TopicRequestSuffix : S → String
  NewHeaderResolver : S → DataPool → UnitType → UnitType → Except Error R
  NewGenericBlockBodyResolver : S → DataPool → UnitType → Except Error R
  createTopicAndAssignHandler : String → R → Bool → Option Error
  createTrieNodesResolver : String → TrieType → Except Error R
  txResolvers : String → UnitType → DataPool → Except Error (List String × List R)
  miniBlocksResolvers : Except Error (List String × List R)

/-- The factory `shardResolversContainerFactory`: the shard coordinator of the base
factory and what is declared outside the file. -/
structure shardResolversContainerFactory (PLC S R : Type) where
  shardCoordinator : Coordinator
  ext : FactoryExternals PLC S R

/-- One logged call of a method of the factory file. -/
inductive FactoryCall (R : Type) where
  | NewTopicResolverSender (topicName : String) (targetShardId : Nat)
  | createTopicAndAssignHandler (topicName : String) (resolver : R) (createChannel : Bool)
  deriving DecidableEq, Repr

/-- State of the factory: its container and the log of calls. -/
structure FactoryState (R : Type) where
  container : ResolversContainer R
  calls : List (FactoryCall R)

/-- Appends a call to the log. -/
def FactoryState.record (st : FactoryState R) (call : FactoryCall R) : FactoryState R :=
  { st with calls := st.calls ++ [call] }

/-- The `(topicName, targetShardId)` arguments of the logged calls to
`NewTopicResolverSender`, in order. -/
def senderCalls : List (FactoryCall R) → List (String × Nat)
  | [] => []
  | .NewTopicResolverSender topicName targetShardId :: rest =>
    (topicName, targetShardId) :: senderCalls rest
  | .createTopicAndAssignHandler _ _ _ :: rest => senderCalls rest

/-- Go idiom `if err != nil { return err }` between two steps. -/
def andThen (r : Option Error × FactoryState R)
    (next : FactoryState R → Option Error × FactoryState R) : Option Error × FactoryState R :=
  match r with
  | (some err, st) => (some err, st)
  | (none, st) => next st

/-- Modelled from the spec: `generateTxResolvers` of the base factory is not among
the sources.  By §4.2 it builds the resolvers of one transaction category
and adds them to the container under their data topics, as one batch. -/
def generateTxResolvers (srcf : shardResolversContainerFactory PLC S R) (topic : String)
    (unit : UnitType) (dataPool : DataPool) (st : FactoryState R) :
    Option Error × FactoryState R :=
  match srcf.ext.txResolvers topic unit dataPool with
  | .error err => (some err, st)
  | .ok (keys, resolverSlice) =>
    match st.container.AddMultiple keys resolverSlice with
    | (err, container) => (err, { st with container := container })

/-- Modelled from the spec: `generateMiniBlocksResolvers` of the base factory is not
among the sources.  By §4.2 it builds the miniblock resolvers and adds them
to the container under their data topics, as one batch. -/
def generateMiniBlocksResolvers (srcf : shardResolversContainerFactory PLC S R)
    (st : FactoryState R) : Option Error × FactoryState R :=
  match srcf.ext.miniBlocksResolvers with
  | .error err => (some err, st)
  | .ok (keys, resolverSlice) =>
    match st.container.AddMultiple keys resolverSlice with
    | (err, container) => (err, { st with container := container })

/-- Method `generateHeaderResolvers`. -/
def generateHeaderResolvers (srcf : shardResolversContainerFactory PLC S R)
    (st : FactoryState R) : Option Error × FactoryState R :=
  let shardC := srcf.shardCoordinator
  -- only one shard header topic, for example: shardBlocks_0_META
  let identifierHdr :=
    ShardBlocksTopic ++ shardC.CommunicationIdentifier srcf.ext.MetachainShardId
  match srcf.ext.NewDiffPeerListCreator identifierHdr emptyExcludePeersOnTopic with
  | .error err => (some err, st)
  | .ok peerListCreator =>
    let st1 := st.record (.NewTopicResolverSender identifierHdr shardC.SelfId)
    match srcf.ext.NewTopicResolverSender identifierHdr peerListCreator shardC.SelfId with
    | .error err => (some err, st1)
    | .ok resolverSender =>
      match srcf.ext.NewHeaderResolver resolverSender .Headers .BlockHeaderUnit
          (.ShardHdrNonceHashDataUnit shardC.SelfId) with
      | .error err => (some err, st1)
      | .ok resolver =>
        -- add on the request topic
        let requestTopic := identifierHdr ++ srcf.ext.TopicRequestSuffix resolverSender
        let st2 := st1.record (.createTopicAndAssignHandler requestTopic resolver false)
        match srcf.ext.createTopicAndAssignHandler requestTopic resolver false with
        | some err => (some err, st2)
        | none =>
          match st2.container.Add identifierHdr resolver with
          | (err, container) => (err, { st2 with container := container })

/-- Method `generatePeerChBlockBodyResolvers`. -/
def generatePeerChBlockBodyResolvers (srcf : shardResolversContainerFactory PLC S R)
    (st : FactoryState R) : Option Error × FactoryState R :=
  let shardC := srcf.shardCoordinator
  -- only one intrashard peer change blocks topic
  let identifierPeerCh :=
    srcf.ext.PeerChBodyTopic ++ shardC.CommunicationIdentifier shardC.SelfId
  match srcf.ext.NewDiffPeerListCreator identifierPeerCh emptyExcludePeersOnTopic with
  | .error err => (some err, st)
  | .ok peerListCreator =>
    let st1 := st.record (.NewTopicResolverSender identifierPeerCh shardC.SelfId)
    match srcf.ext.NewTopicResolverSender identifierPeerCh peerListCreator shardC.SelfId with
    | .error err => (some err, st1)
    | .ok resolverSender =>
      match srcf.ext.NewGenericBlockBodyResolver resolverSender .MiniBlocks
          .PeerChangesUnit with
      | .error err => (some err, st1)
      | .ok resolver =>
        -- add on the request topic
        let requestTopic := identifierPeerCh ++ srcf.ext.TopicRequestSuffix resolverSender
        let st2 := st1.record (.createTopicAndAssignHandler requestTopic resolver false)
        match srcf.ext.createTopicAndAssignHandler requestTopic resolver false with
        | some err => (some err, st2)
        | none =>
          match st2.container.Add identifierPeerCh resolver with
          | (err, container) => (err, { st2 with container := container })

/-- Method `generateMetablockHeaderResolvers`. -/
def generateMetablockHeaderResolvers (srcf : shardResolversContainerFactory PLC S R)
    (st : FactoryState R) : Option Error × FactoryState R :=
  let shardC := srcf.shardCoordinator
  -- only one metachain header block topic, this is: metachainBlocks
  let identifierHdr := MetachainBlocksTopic
  let metaAndCrtShardTopic :=
    ShardBlocksTopic ++ shardC.CommunicationIdentifier srcf.ext.MetachainShardId
  let excludedPeersOnTopic :=
    srcf.ext.TransactionTopic ++ shardC.CommunicationIdentifier shardC.SelfId
  match srcf.ext.NewDiffPeerListCreator metaAndCrtShardTopic excludedPeersOnTopic with
  | .error err => (some err, st)
  | .ok peerListCreator =>
    let st1 := st.record (.NewTopicResolverSender identifierHdr srcf.ext.MetachainShardId)
    match srcf.ext.NewTopicResolverSender identifierHdr peerListCreator
        srcf.ext.MetachainShardId with
    | .error err => (some err, st1)
    | .ok resolverSender =>
      match srcf.ext.NewHeaderResolver resolverSender .Headers .MetaBlockUnit
          .MetaHdrNonceHashDataUnit with
      | .error err => (some err, st1)
      | .ok resolver =>
        -- add on the request topic
        let requestTopic := identifierHdr ++ srcf.ext.TopicRequestSuffix resolverSender
        let st2 := st1.record (.createTopicAndAssignHandler requestTopic resolver false)
        match srcf.ext.createTopicAndAssignHandler requestTopic resolver false with
        | some err => (some err, st2)
        | none =>
          match st2.container.Add identifierHdr resolver with
          | (err, container) => (err, { st2 with container := container })

/-- Method `generateTrieNodesResolvers`. -/
def generateTrieNodesResolvers (srcf : shardResolversContainerFactory PLC S R)
    (st : FactoryState R) : Option Error × FactoryState R :=
  let shardC := srcf.shardCoordinator
  let identifierAccounts :=
    srcf.ext.AccountTrieNodesTopic ++ shardC.CommunicationIdentifier srcf.ext.MetachainShardId
  match srcf.ext.createTrieNodesResolver identifierAccounts .UserAccountTrie with
  | .error err => (some err, st)
  | .ok accountsResolver =>
    let identifierValidators :=
      srcf.ext.ValidatorTrieNodesTopic ++
        shardC.CommunicationIdentifier srcf.ext.MetachainShardId
    match srcf.ext.createTrieNodesResolver identifierValidators .PeerAccountTrie with
    | .error err => (some err, st)
    | .ok validatorsResolver =>
      match st.container.AddMultiple [identifierAccounts, identifierValidators]
          [accountsResolver, validatorsResolver] with
      | (err, container) => (err, { st with container := container })

/-- Method `Create`: returns a resolver container that will hold all resolvers in
the system, or the first error; next to it the state of the factory after
the call. -/
def Create (srcf : shardResolversContainerFactory PLC S R) (st : FactoryState R) :
    Except Error (ResolversContainer R) × FactoryState R :=
  let r1 := generateTxResolvers srcf srcf.ext.TransactionTopic .TransactionUnit
    .Transactions st
  let r2 := andThen r1 (generateTxResolvers srcf srcf.ext.UnsignedTransactionTopic
    .UnsignedTransactionUnit .UnsignedTransactions)
  let r3 := andThen r2 (generateTxResolvers srcf srcf.ext.RewardsTransactionTopic
    .RewardTransactionUnit .RewardTransactions)
  let r4 := andThen r3 (generateHeaderResolvers srcf)
  let r5 := andThen r4 (generateMiniBlocksResolvers srcf)
  let r6 := andThen r5 (generatePeerChBlockBodyResolvers srcf)
  let r7 := andThen r6 (generateMetablockHeaderResolvers srcf)
  let r8 := andThen r7 (generateTrieNodesResolvers srcf)
  match r8 with
  | (some err, st8) => (.error err, st8)
  | (none, st8) => (.ok st8.container, st8)

end Factory

/-! ## A concrete node

A small resolver on which the statements below are exercised: shard 0 of a
two-shard network, a cache holding two headers, a header store holding one
serialized header and the epoch-start block of epoch 5, and a nonce store
holding one nonce.  The header store also holds a block under the
epoch-start identifier of epoch 0.
-/

section Concrete

/-- Big-endian value of a byte string. -/
def bigEndian (bs : List Nat) : Nat := bs.foldl (fun acc x => acc * 256 + x) 0

/-- Interface stub: the unknown-epoch marker is the one-byte string `255`, a
string starting with byte `254` is not an identifier at all. -/
def demoCore : Core where
  IsUnknownEpochIdentifier := fun key =>
    match key with
    | some [255] => (true, none)
    | some (254 :: _) => (false, some (.other "invalid identifier"))
    | _ => (false, none)
  EpochStartIdentifier := fun epoch => if epoch = 5 then "E5" else "E"

/-- Decoder of the demo node: the first byte of the payload is the kind, the rest
the value; a payload that is only the byte `9` decodes to a hash request
with nil value. -/
def demoUnmarshal (message : MessageP2P) : Except Error RequestData :=
  match message.Data with
  | some [9] => .ok ⟨.HashType, none⟩
  | some (0 :: rest) => .ok ⟨.HashType, some rest⟩
  | some (1 :: rest) => .ok ⟨.NonceType, some rest⟩
  | some (2 :: rest) => .ok ⟨.EpochType, some rest⟩
  | some (code :: rest) => .ok ⟨.unknown code, some rest⟩
  | _ => .error (.other "cannot decode")

/-- The demo resolver. -/
def demoResolver : HeaderResolver Nat where
  TopicResolverSender :=
    { SendOnRequestTopic := fun rd =>
        if rd.Value = some [0] then some (.other "no peers") else none
      Send := fun _ peer => if peer = "unreachable" then some (.other "send failed") else none
      TopicRequestSuffix := "_REQUEST"
      TargetShardID := 0 }
  headers :=
    { Peek := fun key =>
        match key with
        | some [1] => some 7
        | some [] => some 8
        | _ => none }
  hdrNonces :=
    { Get := fun nonce =>
        if nonce = 42 then some [(1, some [2]), (0, some [1])]
        else if nonce = 43 then some [(1, some [2]), (0, some [])]
        else none }
  hdrStorage :=
    { Get := fun key =>
        match key with
        | some [2] => (some [20, 21], none)
        | some [69, 53] => (some [50], none)
        | some [69] => (some [60], none)
        | _ => (none, some (.other "key not found")) }
  hdrNoncesStorage :=
    { Get := fun key =>
        match key with
        | some [0, 0, 0, 0, 0, 0, 0, 42] => (some [2], none)
        | _ => (none, some (.other "key not found")) }
  marshalizer :=
    { Marshal := fun value => (some [value, value], none)
      UnmarshalRequestData := demoUnmarshal }
  nonceConverter :=
    { ToUint64 := fun key =>
        match key with
        | some bs => if bs.length = 8 then (bigEndian bs, none) else (0, some (.other "bad length"))
        | none => (0, some (.other "bad length"))
      ToByteSlice := fun nonce =>
        some ((List.range 8).reverse.map (fun i => nonce / 256 ^ i % 256)) }
  epochHandler := { Epoch := 5 }
  shardCoordinator :=
    { SelfId := 0
      NumberOfShards := 2
      CommunicationIdentifier := fun dest => if dest = 0 then "_0" else "_0_META" }
  antifloodHandler :=
    { CanProcessMessage := fun _ peer =>
        if peer = "flooder" then some (.other "flood") else none
      CanProcessMessageOnTopic := fun _ peer _ =>
        if peer = "topicFlooder" then some (.other "topic flood") else none }

/-- Demo senders: the topic and the shard id they were built with. -/
structure DemoSender where
  topicName : String
  targetShardId : Nat
  deriving DecidableEq, Repr

/-- Externals of the demo factory: the metachain is shard `4294967295`, the
request suffix is `_REQUEST`, a resolver is the name of the topic of its
sender behind the name of its constructor, and no constructor fails. -/
def demoExternals : FactoryExternals (String × String) DemoSender String where
  MetachainShardId := 4294967295
  TransactionTopic := "transactions"
  UnsignedTransactionTopic := "unsignedTransactions"
  RewardsTransactionTopic := "rewardsTransactions"
  PeerChBodyTopic := "peerChangeBlockBodies"
  AccountTrieNodesTopic := "accountTrieNodes"
  ValidatorTrieNodesTopic := "validatorTrieNodes"
  NewDiffPeerListCreator := fun mainTopic excluded => .ok (mainTopic, excluded)
  NewTopicResolverSender := fun topicName _ targetShardId => .ok ⟨topicName, targetShardId⟩
  TopicRequestSuffix := fun _ => "_REQUEST"
  NewHeaderResolver := fun sender _ _ _ => .ok ("HeaderResolver:" ++ sender.topicName)
  NewGenericBlockBodyResolver := fun sender _ _ =>
    .ok ("GenericBlockBodyResolver:" ++ sender.topicName)
  createTopicAndAssignHandler := fun _ _ _ => none
  createTrieNodesResolver := fun topicName _ => .ok ("TrieNodeResolver:" ++ topicName)
  txResolvers := fun topic _ _ =>
    .ok ([topic ++ "_0", topic ++ "_0_1", topic ++ "_0_META"],
      ["TxResolver:" ++ topic ++ "_0", "TxResolver:" ++ topic ++ "_0_1",
       "TxResolver:" ++ topic ++ "_0_META"])
  miniBlocksResolvers :=
    .ok (["txBlockBodies_0", "txBlockBodies_0_1", "txBlockBodies_0_META"],
      ["MiniblockResolver:txBlockBodies_0", "MiniblockResolver:txBlockBodies_0_1",
       "MiniblockResolver:txBlockBodies_0_META"])

/-- The demo factory: shard 0 of a two-shard network. -/
def demoFactory : shardResolversContainerFactory (String × String) DemoSender String where
  shardCoordinator :=
    { SelfId := 0
      NumberOfShards := 2
      CommunicationIdentifier := fun dest =>
        if dest = 0 then "_0" else if dest = 4294967295 then "_0_META" else "_0_1" }
  ext := demoExternals

/-- State of a factory that has built nothing yet. -/
def emptyFactoryState : FactoryState String := { container := { objects := [] }, calls := [] }

/-- Container the demo factory builds. -/
def demoContainer : ResolversContainer String where
  objects :=
    [("validatorTrieNodes_0_META", "TrieNodeResolver:validatorTrieNodes_0_META"),
     ("accountTrieNodes_0_META", "TrieNodeResolver:accountTrieNodes_0_META"),
     ("metachainBlocks", "HeaderResolver:metachainBlocks"),
     ("peerChangeBlockBodies_0", "GenericBlockBodyResolver:peerChangeBlockBodies_0"),
     ("txBlockBodies_0_META", "MiniblockResolver:txBlockBodies_0_META"),
     ("txBlockBodies_0_1", "MiniblockResolver:txBlockBodies_0_1"),
     ("txBlockBodies_0", "MiniblockResolver:txBlockBodies_0"),
     ("shardBlocks_0_META", "HeaderResolver:shardBlocks_0_META"),
     ("rewardsTransactions_0_META", "TxResolver:rewardsTransactions_0_META"),
     ("rewardsTransactions_0_1", "TxResolver:rewardsTransactions_0_1"),
     ("rewardsTransactions_0", "TxResolver:rewardsTransactions_0"),
     ("unsignedTransactions_0_META", "TxResolver:unsignedTransactions_0_META"),
     ("unsignedTransactions_0_1", "TxResolver:unsignedTransactions_0_1"),
     ("unsignedTransactions_0", "TxResolver:unsignedTransactions_0"),
     ("transactions_0_META", "TxResolver:transactions_0_META"),
     ("transactions_0_1", "TxResolver:transactions_0_1"),
     ("transactions_0", "TxResolver:transactions_0")]

end Concrete

/-! ## Shape of the call logs -/

section Lemmas

variable {Obj : Type}

theorem parseReceivedMessage_trace (hdrRes : HeaderResolver Obj) (message : MessageP2P) :
    (parseReceivedMessage hdrRes message).2 = [.Unmarshal message] := by
  unfold parseReceivedMessage
  split
  · rfl
  · split <;> rfl

theorem resolveHeaderFromHash_no_send (hdrRes : HeaderResolver Obj) (key : ByteSlice) :
    (resolveHeaderFromHash hdrRes key).2.filter Event.isSend = [] := by
  unfold resolveHeaderFromHash
  split
  · simp [Event.isSend]
  · split <;> simp [Event.isSend]

theorem resolveHeaderFromNonce_no_send (hdrRes : HeaderResolver Obj) (key : ByteSlice) :
    (resolveHeaderFromNonce hdrRes key).2.filter Event.isSend = [] := by
  unfold resolveHeaderFromNonce
  split
  · simp [Event.isSend, resolveHeaderFromHash_no_send]
  · split
    · simp [Event.isSend]
    · split <;>
        (dsimp only
         split <;> simp [Event.isSend, resolveHeaderFromHash_no_send])

theorem resolveHeaderFromEpoch_no_send (core : Core) (hdrRes : HeaderResolver Obj)
    (key : ByteSlice) :
    (resolveHeaderFromEpoch core hdrRes key).2.filter Event.isSend = [] := by
  unfold resolveHeaderFromEpoch
  split <;> simp [Event.isSend]

/-- Scanning a table in which no entry of the target shard carries a non-empty
hash leaves an empty hash empty. -/
theorem range_target_empty (hdrRes : HeaderResolver Obj) (entry : ShardIdHashMap)
    (hash : ByteSlice) (h0 : len hash = 0)
    (hEntry : ∀ shardId existingHash, (shardId, existingHash) ∈ entry →
      shardId = hdrRes.TopicResolverSender.TargetShardID → len existingHash = 0) :
    len (ShardIdHashMap.Range entry (rangeBody hdrRes) hash) = 0 := by
  induction entry generalizing hash with
  | nil => simpa [ShardIdHashMap.Range] using h0
  | cons head rest ih =>
    obtain ⟨shardId, existingHash⟩ := head
    unfold ShardIdHashMap.Range
    by_cases hs : shardId = hdrRes.TopicResolverSender.TargetShardID
    · have hEmpty : len existingHash = 0 := hEntry shardId existingHash (by simp) hs
      simp [rangeBody, hs, hEmpty]
    · simp only [rangeBody, hs, if_false]
      exact ih hash h0 (fun a b hab => hEntry a b (List.mem_cons_of_mem _ hab))

end Lemmas

/-! ## Requests by hash -/

section ByHash

variable {Obj : Type}

/-- C1: a message that passes both flood checks and decodes to a `HashType`
descriptor with (non-nil) value `k`, whose header is in the cache as `obj`
with `Marshal obj` succeeding with bytes `b`, is answered by exactly one
`Send`, of `b`, and header storage is not read. -/
theorem C1_hash_request_cache_hit (core : Core) (hdrRes : HeaderResolver Obj)
    (message : MessageP2P) (fromConnectedPeer : PeerID) (k b : List Nat) (obj : Obj)
    (hFlood : hdrRes.antifloodHandler.CanProcessMessage message fromConnectedPeer = none)
    (hTopic : hdrRes.antifloodHandler.CanProcessMessageOnTopic message fromConnectedPeer
      (topicNameForAntiflood hdrRes) = none)
    (hDecode : hdrRes.marshalizer.UnmarshalRequestData message = .ok ⟨.HashType, some k⟩)
    (hPeek : hdrRes.headers.Peek (some k) = some obj)
    (hMarshal : hdrRes.marshalizer.Marshal obj = (some b, none)) :
    ProcessReceivedMessage core hdrRes message fromConnectedPeer =
        (hdrRes.TopicResolverSender.Send (some b) message.Peer,
          [.CanProcessMessage message fromConnectedPeer,
           .CanProcessMessageOnTopic message fromConnectedPeer (topicNameForAntiflood hdrRes),
           .Unmarshal message, .headersPeek (some k), .Marshal obj,
           .Send (some b) message.Peer])
      ∧ (ProcessReceivedMessage core hdrRes message fromConnectedPeer).2.filter Event.isSend =
          [.Send (some b) message.Peer]
      ∧ (ProcessReceivedMessage core hdrRes message fromConnectedPeer).2.filter
          Event.isHdrStorageRead = [] := by
  have hRun : ProcessReceivedMessage core hdrRes message fromConnectedPeer =
      (hdrRes.TopicResolverSender.Send (some b) message.Peer,
        [.CanProcessMessage message fromConnectedPeer,
         .CanProcessMessageOnTopic message fromConnectedPeer (topicNameForAntiflood hdrRes),
         .Unmarshal message, .headersPeek (some k), .Marshal obj,
         .Send (some b) message.Peer]) := by
    simp [ProcessReceivedMessage, hFlood, hTopic, parseReceivedMessage, hDecode,
      resolveHeaderFromHash, hPeek, hMarshal]
  refine ⟨hRun, ?_, ?_⟩ <;> rw [hRun] <;> simp [Event.isSend, Event.isHdrStorageRead]

/-- C1 on the demo node: the header cached under hash `[1]` is served from the
cache. -/
theorem C1_hash_request_cache_hit_witness :
    ProcessReceivedMessage demoCore demoResolver ⟨some [0, 1], "alice"⟩ "alice" =
        (none,
          [.CanProcessMessage ⟨some [0, 1], "alice"⟩ "alice",
           .CanProcessMessageOnTopic ⟨some [0, 1], "alice"⟩ "alice" "shardBlocks_0_REQUEST",
           .Unmarshal ⟨some [0, 1], "alice"⟩, .headersPeek (some [1]), .Marshal 7,
           .Send (some [7, 7]) "alice"])
      ∧ (ProcessReceivedMessage demoCore demoResolver ⟨some [0, 1], "alice"⟩ "alice").2.filter
          Event.isSend = [.Send (some [7, 7]) "alice"]
      ∧ (ProcessReceivedMessage demoCore demoResolver ⟨some [0, 1], "alice"⟩ "alice").2.filter
          Event.isHdrStorageRead = [] :=
  C1_hash_request_cache_hit demoCore demoResolver ⟨some [0, 1], "alice"⟩ "alice" [1] [7, 7] 7
    (by decide) (by decide) rfl (by decide) (by decide)

/-- C2: a message that passes both flood checks and decodes to a `HashType`
descriptor with (non-nil) value `k`, whose header is not in the cache while
header storage returns bytes `s` without error, is answered by exactly one
`Send`, of `s` itself, and `Marshal` is never called. -/
theorem C2_hash_request_storage_hit (core : Core) (hdrRes : HeaderResolver Obj)
    (message : MessageP2P) (fromConnectedPeer : PeerID) (k s : List Nat)
    (hFlood : hdrRes.antifloodHandler.CanProcessMessage message fromConnectedPeer = none)
    (hTopic : hdrRes.antifloodHandler.CanProcessMessageOnTopic message fromConnectedPeer
      (topicNameForAntiflood hdrRes) = none)
    (hDecode : hdrRes.marshalizer.UnmarshalRequestData message = .ok ⟨.HashType, some k⟩)
    (hPeek : hdrRes.headers.Peek (some k) = none)
    (hGet : hdrRes.hdrStorage.Get (some k) = (some s, none)) :
    ProcessReceivedMessage core hdrRes message fromConnectedPeer =
        (hdrRes.TopicResolverSender.Send (some s) message.Peer,
          [.CanProcessMessage message fromConnectedPeer,
           .CanProcessMessageOnTopic message fromConnectedPeer (topicNameForAntiflood hdrRes),
           .Unmarshal message, .headersPeek (some k), .hdrStorageGet (some k),
           .Send (some s) message.Peer])
      ∧ (ProcessReceivedMessage core hdrRes message fromConnectedPeer).2.filter Event.isSend =
          [.Send (some s) message.Peer]
      ∧ (ProcessReceivedMessage core hdrRes message fromConnectedPeer).2.filter
          Event.isMarshal = [] := by
  have hRun : ProcessReceivedMessage core hdrRes message fromConnectedPeer =
      (hdrRes.TopicResolverSender.Send (some s) message.Peer,
        [.CanProcessMessage message fromConnectedPeer,
         .CanProcessMessageOnTopic message fromConnectedPeer (topicNameForAntiflood hdrRes),
         .Unmarshal message, .headersPeek (some k), .hdrStorageGet (some k),
         .Send (some s) message.Peer]) := by
    simp [ProcessReceivedMessage, hFlood, hTopic, parseReceivedMessage, hDecode,
      resolveHeaderFromHash, hPeek, hGet]
  refine ⟨hRun, ?_, ?_⟩ <;> rw [hRun] <;> simp [Event.isSend, Event.isMarshal]

/-- C2 on the demo node: the header stored under hash `[2]` is served as stored. -/
theorem C2_hash_request_storage_hit_witness :
    ProcessReceivedMessage demoCore demoResolver ⟨some [0, 2], "alice"⟩ "alice" =
        (none,
          [.CanProcessMessage ⟨some [0, 2], "alice"⟩ "alice",
           .CanProcessMessageOnTopic ⟨some [0, 2], "alice"⟩ "alice" "shardBlocks_0_REQUEST",
           .Unmarshal ⟨some [0, 2], "alice"⟩, .headersPeek (some [2]),
           .hdrStorageGet (some [2]), .Send (some [20, 21]) "alice"])
      ∧ (ProcessReceivedMessage demoCore demoResolver ⟨some [0, 2], "alice"⟩ "alice").2.filter
          Event.isSend = [.Send (some [20, 21]) "alice"]
      ∧ (ProcessReceivedMessage demoCore demoResolver ⟨some [0, 2], "alice"⟩ "alice").2.filter
          Event.isMarshal = [] :=
  C2_hash_request_storage_hit demoCore demoResolver ⟨some [0, 2], "alice"⟩ "alice" [2] [20, 21]
    (by decide) (by decide) rfl (by decide) (by decide)

end ByHash

/-! ## Requests by nonce and by epoch -/

section ByNonceAndEpoch

variable {Obj : Type}

/-- C3: when the nonce-hash storage yields a (non-nil) hash `h` for the key,
`resolveHeaderFromNonce` returns what `resolveHeaderFromHash h` returns,
whatever in-memory index the resolver holds, and the index is never read. -/
theorem C3_nonce_storage_precedes_index (hdrRes : HeaderResolver Obj)
    (index : Uint64SyncMapCacher) (key : ByteSlice) (h : List Nat) (err : Option Error)
    (hGet : hdrRes.hdrNoncesStorage.Get key = (some h, err)) :
    resolveHeaderFromNonce { hdrRes with hdrNonces := index } key =
        ((resolveHeaderFromHash hdrRes (some h)).1,
          .hdrNoncesStorageGet key :: (resolveHeaderFromHash hdrRes (some h)).2)
      ∧ (resolveHeaderFromNonce { hdrRes with hdrNonces := index } key).2.filter
          Event.isHdrNoncesRead = [] := by
  have hHash : resolveHeaderFromHash { hdrRes with hdrNonces := index } (some h) =
      resolveHeaderFromHash hdrRes (some h) := rfl
  have hRun : resolveHeaderFromNonce { hdrRes with hdrNonces := index } key =
      ((resolveHeaderFromHash hdrRes (some h)).1,
        .hdrNoncesStorageGet key :: (resolveHeaderFromHash hdrRes (some h)).2) := by
    rw [← hHash]
    simp [resolveHeaderFromNonce, hGet]
  refine ⟨hRun, ?_⟩
  rw [hRun]
  unfold resolveHeaderFromHash
  split
  · simp [Event.isHdrNoncesRead]
  · split <;> simp [Event.isHdrNoncesRead]

/-- C3 on the demo node: nonce 42 is stored with hash `[2]`; an index that
offers hash `[1]` for the target shard under every nonce changes nothing. -/
theorem C3_nonce_storage_precedes_index_witness :
    resolveHeaderFromNonce
        { demoResolver with hdrNonces := { Get := fun _ => some [(0, some [1])] } }
        (some [0, 0, 0, 0, 0, 0, 0, 42]) =
        ((resolveHeaderFromHash demoResolver (some [2])).1,
          .hdrNoncesStorageGet (some [0, 0, 0, 0, 0, 0, 0, 42]) ::
            (resolveHeaderFromHash demoResolver (some [2])).2)
      ∧ (resolveHeaderFromNonce
          { demoResolver with hdrNonces := { Get := fun _ => some [(0, some [1])] } }
          (some [0, 0, 0, 0, 0, 0, 0, 42])).2.filter Event.isHdrNoncesRead = [] :=
  C3_nonce_storage_precedes_index demoResolver { Get := fun _ => some [(0, some [1])] }
    (some [0, 0, 0, 0, 0, 0, 0, 42]) [2] none (by decide)

/-- C4: for a key that is the unknown-epoch marker, `resolveHeaderFromEpoch`
asks the epoch handler for the epoch, reads header storage under
`EpochStartIdentifier` of that epoch and returns the result of that read; for
a key that is not the marker it reads header storage under the key itself.
The header cache is read in neither case. -/
theorem C4_epoch_request_storage_key (core : Core) (hdrRes : HeaderResolver Obj)
    (key : ByteSlice) :
    (core.IsUnknownEpochIdentifier key = (true, none) →
      resolveHeaderFromEpoch core hdrRes key =
        (hdrRes.hdrStorage.Get
            (bytesOfString (core.EpochStartIdentifier hdrRes.epochHandler.Epoch)),
          [.Epoch,
           .hdrStorageGet
             (bytesOfString (core.EpochStartIdentifier hdrRes.epochHandler.Epoch))]))
      ∧ (core.IsUnknownEpochIdentifier key = (false, none) →
          resolveHeaderFromEpoch core hdrRes key =
            (hdrRes.hdrStorage.Get key, [.hdrStorageGet key]))
      ∧ (resolveHeaderFromEpoch core hdrRes key).2.filter Event.isHeadersRead = [] := by
  refine ⟨?_, ?_, ?_⟩
  · intro hMarker
    simp [resolveHeaderFromEpoch, hMarker]
  · intro hPlain
    simp [resolveHeaderFromEpoch, hPlain]
  · unfold resolveHeaderFromEpoch
    split <;> simp [Event.isHeadersRead]

/-- C4 on the demo node, whose epoch handler reports epoch 5: the marker `[255]`
is answered from the storage entry of `"E5"`, not from an entry of `[255]`. -/
theorem C4_epoch_request_storage_key_witness :
    demoCore.IsUnknownEpochIdentifier (some [255]) = (true, none)
      ∧ resolveHeaderFromEpoch demoCore demoResolver (some [255]) =
          ((some [50], none), [.Epoch, .hdrStorageGet (some [69, 53])])
      ∧ demoCore.IsUnknownEpochIdentifier (some [2]) = (false, none)
      ∧ resolveHeaderFromEpoch demoCore demoResolver (some [2]) =
          ((some [20, 21], none), [.hdrStorageGet (some [2])]) :=
  ⟨by decide,
    (C4_epoch_request_storage_key demoCore demoResolver (some [255])).1 (by decide),
    by decide,
    (C4_epoch_request_storage_key demoCore demoResolver (some [2])).2.1 (by decide)⟩

/-- C10: when the nonce-hash storage yields no hash for the key, the key decodes
to nonce `n`, and the index has no entry for `n` or an entry in which no hash
of the target shard is non-empty, `resolveHeaderFromNonce` returns
`(nil, nil)`; `ProcessReceivedMessage` then returns nil, sends nothing and
reads neither the header cache nor header storage. -/
theorem C10_nonce_request_not_found (core : Core) (hdrRes : HeaderResolver Obj)
    (message : MessageP2P) (fromConnectedPeer : PeerID) (key : List Nat) (n : Nat)
    (err : Option Error)
    (hFlood : hdrRes.antifloodHandler.CanProcessMessage message fromConnectedPeer = none)
    (hTopic : hdrRes.antifloodHandler.CanProcessMessageOnTopic message fromConnectedPeer
      (topicNameForAntiflood hdrRes) = none)
    (hDecode : hdrRes.marshalizer.UnmarshalRequestData message = .ok ⟨.NonceType, some key⟩)
    (hGet : hdrRes.hdrNoncesStorage.Get (some key) = (none, err))
    (hNonce : hdrRes.nonceConverter.ToUint64 (some key) = (n, none))
    (hIndex : hdrRes.hdrNonces.Get n = none ∨
      ∃ entry, hdrRes.hdrNonces.Get n = some entry ∧
        ∀ shardId existingHash, (shardId, existingHash) ∈ entry →
          shardId = hdrRes.TopicResolverSender.TargetShardID → len existingHash = 0) :
    resolveHeaderFromNonce hdrRes (some key) =
        ((none, none),
          [.hdrNoncesStorageGet (some key), .ToUint64 (some key), .hdrNoncesGet n])
      ∧ ProcessReceivedMessage core hdrRes message fromConnectedPeer =
        (none,
          [.CanProcessMessage message fromConnectedPeer,
           .CanProcessMessageOnTopic message fromConnectedPeer (topicNameForAntiflood hdrRes),
           .Unmarshal message, .hdrNoncesStorageGet (some key), .ToUint64 (some key),
           .hdrNoncesGet n])
      ∧ (ProcessReceivedMessage core hdrRes message fromConnectedPeer).2.filter
          Event.isSend = []
      ∧ (ProcessReceivedMessage core hdrRes message fromConnectedPeer).2.filter
          Event.isHeadersRead = []
      ∧ (ProcessReceivedMessage core hdrRes message fromConnectedPeer).2.filter
          Event.isHdrStorageRead = [] := by
  have hResolve : resolveHeaderFromNonce hdrRes (some key) =
      ((none, none),
        [.hdrNoncesStorageGet (some key), .ToUint64 (some key), .hdrNoncesGet n]) := by
    rcases hIndex with hNone | ⟨entry, hSome, hEntry⟩
    · simp [resolveHeaderFromNonce, hGet, hNonce, hNone, len]
    · have hLen := range_target_empty hdrRes entry none rfl hEntry
      simp [resolveHeaderFromNonce, hGet, hNonce, hSome, hLen]
  have hRun : ProcessReceivedMessage core hdrRes message fromConnectedPeer =
      (none,
        [.CanProcessMessage message fromConnectedPeer,
         .CanProcessMessageOnTopic message fromConnectedPeer (topicNameForAntiflood hdrRes),
         .Unmarshal message, .hdrNoncesStorageGet (some key), .ToUint64 (some key),
         .hdrNoncesGet n]) := by
    simp [ProcessReceivedMessage, hFlood, hTopic, parseReceivedMessage, hDecode, hResolve]
  refine ⟨hResolve, hRun, ?_, ?_, ?_⟩ <;> rw [hRun] <;>
    simp [Event.isSend, Event.isHeadersRead, Event.isHdrStorageRead]

/-- C10 on the demo node: nonce 43 is not in the nonce store and its index entry
holds a hash for shard 1 but only the empty hash for the target shard 0. -/
theorem C10_nonce_request_not_found_witness :
    resolveHeaderFromNonce demoResolver (some [0, 0, 0, 0, 0, 0, 0, 43]) =
        ((none, none),
          [.hdrNoncesStorageGet (some [0, 0, 0, 0, 0, 0, 0, 43]),
           .ToUint64 (some [0, 0, 0, 0, 0, 0, 0, 43]), .hdrNoncesGet 43])
      ∧ (ProcessReceivedMessage demoCore demoResolver
          ⟨some [1, 0, 0, 0, 0, 0, 0, 0, 43], "alice"⟩ "alice").1 = none :=
  have h := C10_nonce_request_not_found demoCore demoResolver
    ⟨some [1, 0, 0, 0, 0, 0, 0, 0, 43], "alice"⟩ "alice" [0, 0, 0, 0, 0, 0, 0, 43] 43
    (some (.other "key not found")) (by decide) (by decide) rfl (by decide) (by decide)
    (Or.inr ⟨[(1, some [2]), (0, some [])], by decide, by
      intro shardId existingHash hMem hShard
      simp only [List.mem_cons, Prod.mk.injEq, List.mem_nil_iff, or_false] at hMem
      rcases hMem with ⟨h1, _⟩ | ⟨_, h2⟩
      · rw [h1] at hShard
        exact absurd hShard (by decide)
      · rw [h2]
        rfl⟩)
  ⟨h.1, by rw [h.2.1]⟩

end ByNonceAndEpoch

/-! ## Gate, parsing, dispatch and response -/

section Handler

variable {Obj : Type}

/-- C5: when the global flood check fails, or passes while the per-topic check
fails, `ProcessReceivedMessage` returns that error; its call log holds no
read of cache, header storage, nonce storage or index, no decoding and no
`Send`, and when the global check fails the log is that single check. -/
theorem C5_flood_rejection_reads_nothing (core : Core) (hdrRes : HeaderResolver Obj)
    (message : MessageP2P) (fromConnectedPeer : PeerID) (err : Error)
    (hReject : hdrRes.antifloodHandler.CanProcessMessage message fromConnectedPeer = some err ∨
      (hdrRes.antifloodHandler.CanProcessMessage message fromConnectedPeer = none ∧
        hdrRes.antifloodHandler.CanProcessMessageOnTopic message fromConnectedPeer
          (topicNameForAntiflood hdrRes) = some err)) :
    (ProcessReceivedMessage core hdrRes message fromConnectedPeer).1 = some err
      ∧ (ProcessReceivedMessage core hdrRes message fromConnectedPeer).2.filter
          Event.isRead = []
      ∧ (ProcessReceivedMessage core hdrRes message fromConnectedPeer).2.filter
          Event.isUnmarshal = []
      ∧ (ProcessReceivedMessage core hdrRes message fromConnectedPeer).2.filter
          Event.isSend = []
      ∧ (hdrRes.antifloodHandler.CanProcessMessage message fromConnectedPeer = some err →
          (ProcessReceivedMessage core hdrRes message fromConnectedPeer).2 =
            [.CanProcessMessage message fromConnectedPeer])
      ∧ (hdrRes.antifloodHandler.CanProcessMessage message fromConnectedPeer = some err →
          (ProcessReceivedMessage core hdrRes message fromConnectedPeer).2.filter
            Event.isTopicCheck = [])
      ∧ (hdrRes.antifloodHandler.CanProcessMessage message fromConnectedPeer = none →
          (ProcessReceivedMessage core hdrRes message fromConnectedPeer).2 =
            [.CanProcessMessage message fromConnectedPeer,
             .CanProcessMessageOnTopic message fromConnectedPeer
               (topicNameForAntiflood hdrRes)]) := by
  rcases hReject with hFlood | ⟨hFlood, hTopic⟩
  · have hRun : ProcessReceivedMessage core hdrRes message fromConnectedPeer =
        (some err, [.CanProcessMessage message fromConnectedPeer]) := by
      simp [ProcessReceivedMessage, hFlood]
    rw [hRun]
    simp [hFlood, Event.isRead, Event.isHeadersRead, Event.isHdrStorageRead,
      Event.isHdrNoncesStorageRead, Event.isHdrNoncesRead, Event.isUnmarshal, Event.isSend,
      Event.isTopicCheck]
  · have hRun : ProcessReceivedMessage core hdrRes message fromConnectedPeer =
        (some err,
          [.CanProcessMessage message fromConnectedPeer,
           .CanProcessMessageOnTopic message fromConnectedPeer
             (topicNameForAntiflood hdrRes)]) := by
      simp [ProcessReceivedMessage, hFlood, hTopic]
    rw [hRun]
    simp [hFlood, Event.isRead, Event.isHeadersRead, Event.isHdrStorageRead,
      Event.isHdrNoncesStorageRead, Event.isHdrNoncesRead, Event.isUnmarshal, Event.isSend,
      Event.isTopicCheck]

/-- C5 on the demo node: a message relayed by the peer the global check rejects
is dropped after that one check, although its header is in the cache. -/
theorem C5_flood_rejection_reads_nothing_witness :
    ProcessReceivedMessage demoCore demoResolver ⟨some [0, 1], "alice"⟩ "flooder" =
      (some (.other "flood"), [.CanProcessMessage ⟨some [0, 1], "alice"⟩ "flooder"]) :=
  have h := C5_flood_rejection_reads_nothing demoCore demoResolver ⟨some [0, 1], "alice"⟩
    "flooder" (.other "flood") (Or.inl (by decide))
  Prod.ext h.1 (h.2.2.2.2.1 (by decide))

/-- C6: when both flood checks pass, parsing yields the descriptor `rd`, and the
resolution selected by the kind of `rd` yields non-nil bytes `b` without
error, `ProcessReceivedMessage` calls `Send` exactly once, after the
resolution, with payload `b` and destination `message.Peer`, and returns what
that `Send` returns. -/
theorem C6_found_is_sent_once_to_requester (core : Core) (hdrRes : HeaderResolver Obj)
    (message : MessageP2P) (fromConnectedPeer : PeerID) (rd : RequestData) (b : List Nat)
    (u : Trace Obj)
    (hFlood : hdrRes.antifloodHandler.CanProcessMessage message fromConnectedPeer = none)
    (hTopic : hdrRes.antifloodHandler.CanProcessMessageOnTopic message fromConnectedPeer
      (topicNameForAntiflood hdrRes) = none)
    (hParse : (parseReceivedMessage hdrRes message).1 = .ok rd)
    (hResolved :
      (rd.Kind = .HashType ∧ resolveHeaderFromHash hdrRes rd.Value = ((some b, none), u)) ∨
      (rd.Kind = .NonceType ∧ resolveHeaderFromNonce hdrRes rd.Value = ((some b, none), u)) ∨
      (rd.Kind = .EpochType ∧
        resolveHeaderFromEpoch core hdrRes rd.Value = ((some b, none), u))) :
    ProcessReceivedMessage core hdrRes message fromConnectedPeer =
        (hdrRes.TopicResolverSender.Send (some b) message.Peer,
          [.CanProcessMessage message fromConnectedPeer,
           .CanProcessMessageOnTopic message fromConnectedPeer (topicNameForAntiflood hdrRes),
           .Unmarshal message] ++ u ++ [.Send (some b) message.Peer])
      ∧ sendCount (ProcessReceivedMessage core hdrRes message fromConnectedPeer).2 = 1
      ∧ (ProcessReceivedMessage core hdrRes message fromConnectedPeer).2.filter Event.isSend =
          [.Send (some b) message.Peer] := by
  have hParsed : parseReceivedMessage hdrRes message = (.ok rd, [.Unmarshal message]) :=
    Prod.ext hParse (parseReceivedMessage_trace hdrRes message)
  have hQuiet : u.filter Event.isSend = [] := by
    rcases hResolved with ⟨_, hr⟩ | ⟨_, hr⟩ | ⟨_, hr⟩
    · have h := resolveHeaderFromHash_no_send hdrRes rd.Value
      rwa [hr] at h
    · have h := resolveHeaderFromNonce_no_send hdrRes rd.Value
      rwa [hr] at h
    · have h := resolveHeaderFromEpoch_no_send core hdrRes rd.Value
      rwa [hr] at h
  have hRun : ProcessReceivedMessage core hdrRes message fromConnectedPeer =
      (hdrRes.TopicResolverSender.Send (some b) message.Peer,
        [.CanProcessMessage message fromConnectedPeer,
         .CanProcessMessageOnTopic message fromConnectedPeer (topicNameForAntiflood hdrRes),
         .Unmarshal message] ++ u ++ [.Send (some b) message.Peer]) := by
    rcases hResolved with ⟨hk, hr⟩ | ⟨hk, hr⟩ | ⟨hk, hr⟩ <;>
      simp [ProcessReceivedMessage, hFlood, hTopic, hParsed, hk, hr]
  refine ⟨hRun, ?_, ?_⟩
  · rw [hRun, sendCount, List.countP_eq_length_filter]
    simp [List.filter_append, hQuiet, Event.isSend]
  · rw [hRun]
    simp [List.filter_append, hQuiet, Event.isSend]

/-- C6 on the demo node: nonce 42 resolves through the nonce store and header
storage to the bytes `[20, 21]`, which are sent once to the requester. -/
theorem C6_found_is_sent_once_to_requester_witness :
    ProcessReceivedMessage demoCore demoResolver
        ⟨some [1, 0, 0, 0, 0, 0, 0, 0, 42], "alice"⟩ "bob" =
        (none,
          [.CanProcessMessage ⟨some [1, 0, 0, 0, 0, 0, 0, 0, 42], "alice"⟩ "bob",
           .CanProcessMessageOnTopic ⟨some [1, 0, 0, 0, 0, 0, 0, 0, 42], "alice"⟩ "bob"
             "shardBlocks_0_REQUEST",
           .Unmarshal ⟨some [1, 0, 0, 0, 0, 0, 0, 0, 42], "alice"⟩,
           .hdrNoncesStorageGet (some [0, 0, 0, 0, 0, 0, 0, 42]), .headersPeek (some [2]),
           .hdrStorageGet (some [2]), .Send (some [20, 21]) "alice"])
      ∧ sendCount (ProcessReceivedMessage demoCore demoResolver
          ⟨some [1, 0, 0, 0, 0, 0, 0, 0, 42], "alice"⟩ "bob").2 = 1 :=
  have h := C6_found_is_sent_once_to_requester demoCore demoResolver
    ⟨some [1, 0, 0, 0, 0, 0, 0, 0, 42], "alice"⟩ "bob"
    ⟨.NonceType, some [0, 0, 0, 0, 0, 0, 0, 42]⟩ [20, 21]
    [.hdrNoncesStorageGet (some [0, 0, 0, 0, 0, 0, 0, 42]), .headersPeek (some [2]),
     .hdrStorageGet (some [2])]
    (by decide) (by decide) rfl (Or.inr (Or.inl ⟨rfl, by decide⟩))
  ⟨h.1, h.2.1⟩

/-- C7, as the code has it: a `HashType` request whose hash is not in the cache
and for which header storage returns no bytes and its not-found error `err`
makes `ProcessReceivedMessage` return `err`; nothing is sent. -/
theorem C7_hash_request_not_found_returns_storage_error (core : Core)
    (hdrRes : HeaderResolver Obj) (message : MessageP2P) (fromConnectedPeer : PeerID)
    (k : List Nat) (err : Error)
    (hFlood : hdrRes.antifloodHandler.CanProcessMessage message fromConnectedPeer = none)
    (hTopic : hdrRes.antifloodHandler.CanProcessMessageOnTopic message fromConnectedPeer
      (topicNameForAntiflood hdrRes) = none)
    (hDecode : hdrRes.marshalizer.UnmarshalRequestData message = .ok ⟨.HashType, some k⟩)
    (hPeek : hdrRes.headers.Peek (some k) = none)
    (hGet : hdrRes.hdrStorage.Get (some k) = (none, some err)) :
    ProcessReceivedMessage core hdrRes message fromConnectedPeer =
        (some err,
          [.CanProcessMessage message fromConnectedPeer,
           .CanProcessMessageOnTopic message fromConnectedPeer (topicNameForAntiflood hdrRes),
           .Unmarshal message, .headersPeek (some k), .hdrStorageGet (some k)])
      ∧ (ProcessReceivedMessage core hdrRes message fromConnectedPeer).2.filter
          Event.isSend = [] := by
  have hRun : ProcessReceivedMessage core hdrRes message fromConnectedPeer =
      (some err,
        [.CanProcessMessage message fromConnectedPeer,
         .CanProcessMessageOnTopic message fromConnectedPeer (topicNameForAntiflood hdrRes),
         .Unmarshal message, .headersPeek (some k), .hdrStorageGet (some k)]) := by
    simp [ProcessReceivedMessage, hFlood, hTopic, parseReceivedMessage, hDecode,
      resolveHeaderFromHash, hPeek, hGet]
  refine ⟨hRun, ?_⟩
  rw [hRun]
  simp [Event.isSend]

/-- C7 on the demo node: hash `[3]` is neither cached nor stored. -/
theorem C7_hash_request_not_found_returns_storage_error_witness :
    ProcessReceivedMessage demoCore demoResolver ⟨some [0, 3], "alice"⟩ "alice" =
        (some (.other "key not found"),
          [.CanProcessMessage ⟨some [0, 3], "alice"⟩ "alice",
           .CanProcessMessageOnTopic ⟨some [0, 3], "alice"⟩ "alice" "shardBlocks_0_REQUEST",
           .Unmarshal ⟨some [0, 3], "alice"⟩, .headersPeek (some [3]),
           .hdrStorageGet (some [3])]) :=
  (C7_hash_request_not_found_returns_storage_error demoCore demoResolver
    ⟨some [0, 3], "alice"⟩ "alice" [3] (.other "key not found")
    (by decide) (by decide) rfl (by decide) (by decide)).1

/-- C7 as worded fails: on the demo node the request for hash `[3]` passes both
flood checks, decodes to a `HashType` descriptor, misses the cache, gets the
not-found error from header storage, and `ProcessReceivedMessage` returns
that error instead of nil. -/
theorem C7_not_found_is_an_error_counterexample :
    demoResolver.antifloodHandler.CanProcessMessage ⟨some [0, 3], "alice"⟩ "alice" = none
      ∧ demoResolver.antifloodHandler.CanProcessMessageOnTopic ⟨some [0, 3], "alice"⟩ "alice"
          (topicNameForAntiflood demoResolver) = none
      ∧ demoResolver.marshalizer.UnmarshalRequestData ⟨some [0, 3], "alice"⟩ =
          .ok ⟨.HashType, some [3]⟩
      ∧ demoResolver.headers.Peek (some [3]) = none
      ∧ demoResolver.hdrStorage.Get (some [3]) = (none, some (.other "key not found"))
      ∧ (ProcessReceivedMessage demoCore demoResolver ⟨some [0, 3], "alice"⟩ "alice").1 ≠
          none :=
  ⟨by decide, by decide, rfl, by decide, by decide, by decide⟩

/-- C8, as the code has it: a message that passes both flood checks and decodes
to a descriptor whose value is nil is rejected with `ErrNilValue` right after
decoding: no cache, storage or index read and no `Send` occur. -/
theorem C8_nil_value_rejected_before_lookup (core : Core) (hdrRes : HeaderResolver Obj)
    (message : MessageP2P) (fromConnectedPeer : PeerID) (rd : RequestData)
    (hFlood : hdrRes.antifloodHandler.CanProcessMessage message fromConnectedPeer = none)
    (hTopic : hdrRes.antifloodHandler.CanProcessMessageOnTopic message fromConnectedPeer
      (topicNameForAntiflood hdrRes) = none)
    (hDecode : hdrRes.marshalizer.UnmarshalRequestData message = .ok rd)
    (hNil : rd.Value = none) :
    ProcessReceivedMessage core hdrRes message fromConnectedPeer =
        (some .ErrNilValue,
          [.CanProcessMessage message fromConnectedPeer,
           .CanProcessMessageOnTopic message fromConnectedPeer (topicNameForAntiflood hdrRes),
           .Unmarshal message])
      ∧ (ProcessReceivedMessage core hdrRes message fromConnectedPeer).2.filter
          Event.isRead = []
      ∧ (ProcessReceivedMessage core hdrRes message fromConnectedPeer).2.filter
          Event.isSend = [] := by
  have hRun : ProcessReceivedMessage core hdrRes message fromConnectedPeer =
      (some .ErrNilValue,
        [.CanProcessMessage message fromConnectedPeer,
         .CanProcessMessageOnTopic message fromConnectedPeer (topicNameForAntiflood hdrRes),
         .Unmarshal message]) := by
    simp [ProcessReceivedMessage, hFlood, hTopic, parseReceivedMessage, hDecode, hNil]
  refine ⟨hRun, ?_, ?_⟩ <;> rw [hRun] <;>
    simp [Event.isRead, Event.isHeadersRead, Event.isHdrStorageRead,
      Event.isHdrNoncesStorageRead, Event.isHdrNoncesRead, Event.isSend]

/-- C8 on the demo node: the payload `[9]` decodes to a hash request with nil
value. -/
theorem C8_nil_value_rejected_before_lookup_witness :
    ProcessReceivedMessage demoCore demoResolver ⟨some [9], "alice"⟩ "alice" =
        (some .ErrNilValue,
          [.CanProcessMessage ⟨some [9], "alice"⟩ "alice",
           .CanProcessMessageOnTopic ⟨some [9], "alice"⟩ "alice" "shardBlocks_0_REQUEST",
           .Unmarshal ⟨some [9], "alice"⟩]) :=
  (C8_nil_value_rejected_before_lookup demoCore demoResolver ⟨some [9], "alice"⟩ "alice"
    ⟨.HashType, none⟩ (by decide) (by decide) rfl rfl).1

/-- C8 as worded fails: on the demo node the payload `[0]` passes both flood
checks and decodes to a `HashType` descriptor whose value is the non-nil
slice of length zero; it is not rejected: the cache is read under the empty
key and the header found there is sent. -/
theorem C8_zero_length_value_is_looked_up_counterexample :
    demoResolver.antifloodHandler.CanProcessMessage ⟨some [0], "alice"⟩ "alice" = none
      ∧ demoResolver.antifloodHandler.CanProcessMessageOnTopic ⟨some [0], "alice"⟩ "alice"
          (topicNameForAntiflood demoResolver) = none
      ∧ demoResolver.marshalizer.UnmarshalRequestData ⟨some [0], "alice"⟩ =
          .ok ⟨.HashType, some []⟩
      ∧ len (some []) = 0
      ∧ ProcessReceivedMessage demoCore demoResolver ⟨some [0], "alice"⟩ "alice" =
          (none,
            [.CanProcessMessage ⟨some [0], "alice"⟩ "alice",
             .CanProcessMessageOnTopic ⟨some [0], "alice"⟩ "alice" "shardBlocks_0_REQUEST",
             .Unmarshal ⟨some [0], "alice"⟩, .headersPeek (some []), .Marshal 8,
             .Send (some [8, 8]) "alice"]) :=
  ⟨by decide, by decide, rfl, rfl, by decide⟩

/-- C9: a message that passes both flood checks and decodes to a descriptor with
non-nil value whose kind is none of `HashType`, `NonceType`, `EpochType`
makes `ProcessReceivedMessage` return `ErrResolveTypeUnknown`; nothing is
sent and no cache, storage or index is read. -/
theorem C9_unknown_kind_rejected (core : Core) (hdrRes : HeaderResolver Obj)
    (message : MessageP2P) (fromConnectedPeer : PeerID) (rd : RequestData) (v : List Nat)
    (hFlood : hdrRes.antifloodHandler.CanProcessMessage message fromConnectedPeer = none)
    (hTopic : hdrRes.antifloodHandler.CanProcessMessageOnTopic message fromConnectedPeer
      (topicNameForAntiflood hdrRes) = none)
    (hDecode : hdrRes.marshalizer.UnmarshalRequestData message = .ok rd)
    (hValue : rd.Value = some v)
    (hHash : rd.Kind ≠ .HashType) (hNonce : rd.Kind ≠ .NonceType)
    (hEpoch : rd.Kind ≠ .EpochType) :
    ProcessReceivedMessage core hdrRes message fromConnectedPeer =
        (some .ErrResolveTypeUnknown,
          [.CanProcessMessage message fromConnectedPeer,
           .CanProcessMessageOnTopic message fromConnectedPeer (topicNameForAntiflood hdrRes),
           .Unmarshal message])
      ∧ (ProcessReceivedMessage core hdrRes message fromConnectedPeer).2.filter
          Event.isSend = []
      ∧ (ProcessReceivedMessage core hdrRes message fromConnectedPeer).2.filter
          Event.isRead = [] := by
  have hRun : ProcessReceivedMessage core hdrRes message fromConnectedPeer =
      (some .ErrResolveTypeUnknown,
        [.CanProcessMessage message fromConnectedPeer,
         .CanProcessMessageOnTopic message fromConnectedPeer (topicNameForAntiflood hdrRes),
         .Unmarshal message]) := by
    obtain ⟨kind, value⟩ := rd
    cases kind with
    | HashType => exact absurd rfl hHash
    | NonceType => exact absurd rfl hNonce
    | EpochType => exact absurd rfl hEpoch
    | unknown code =>
      simp only at hValue
      simp [ProcessReceivedMessage, hFlood, hTopic, parseReceivedMessage, hDecode, hValue]
  refine ⟨hRun, ?_, ?_⟩ <;> rw [hRun] <;>
    simp [Event.isRead, Event.isHeadersRead, Event.isHdrStorageRead,
      Event.isHdrNoncesStorageRead, Event.isHdrNoncesRead, Event.isSend]

/-- C9 on the demo node: kind byte `7` is not a known kind, although the value
`[1]` is the hash of a cached header. -/
theorem C9_unknown_kind_rejected_witness :
    ProcessReceivedMessage demoCore demoResolver ⟨some [7, 1], "alice"⟩ "alice" =
        (some .ErrResolveTypeUnknown,
          [.CanProcessMessage ⟨some [7, 1], "alice"⟩ "alice",
           .CanProcessMessageOnTopic ⟨some [7, 1], "alice"⟩ "alice" "shardBlocks_0_REQUEST",
           .Unmarshal ⟨some [7, 1], "alice"⟩]) :=
  (C9_unknown_kind_rejected demoCore demoResolver ⟨some [7, 1], "alice"⟩ "alice"
    ⟨.unknown 7, some [1]⟩ [1] (by decide) (by decide) rfl rfl
    (by decide) (by decide) (by decide)).1

end Handler

/-! ## Outbound requests -/

section Outbound

variable {Obj : Type}

/-- C11: each outbound request method makes exactly one call to
`SendOnRequestTopic`, with the descriptor of its kind, and returns the result
of that call: `RequestDataFromHash h` with `(HashType, h)`,
`RequestDataFromNonce n` with `(NonceType, ToByteSlice n)`,
`RequestDataFromEpoch id` with `(EpochType, id)`.  No cache, storage or index
is read.  On the demo node, whose converter is the 8-byte big-endian one, the
value for nonce 42 is `[0, 0, 0, 0, 0, 0, 0, 42]`. -/
theorem C11_request_methods_delegate (hdrRes : HeaderResolver Obj) (hash identifier : ByteSlice)
    (nonce : Nat) :
    RequestDataFromHash hdrRes hash =
        (hdrRes.TopicResolverSender.SendOnRequestTopic ⟨.HashType, hash⟩,
          [.SendOnRequestTopic ⟨.HashType, hash⟩])
      ∧ RequestDataFromNonce hdrRes nonce =
        (hdrRes.TopicResolverSender.SendOnRequestTopic
            ⟨.NonceType, hdrRes.nonceConverter.ToByteSlice nonce⟩,
          [.ToByteSlice nonce,
           .SendOnRequestTopic ⟨.NonceType, hdrRes.nonceConverter.ToByteSlice nonce⟩])
      ∧ RequestDataFromEpoch hdrRes identifier =
        (hdrRes.TopicResolverSender.SendOnRequestTopic ⟨.EpochType, identifier⟩,
          [.SendOnRequestTopic ⟨.EpochType, identifier⟩])
      ∧ ((RequestDataFromHash hdrRes hash).2.filter Event.isSendOnRequestTopic).length = 1
      ∧ ((RequestDataFromNonce hdrRes nonce).2.filter Event.isSendOnRequestTopic).length = 1
      ∧ ((RequestDataFromEpoch hdrRes identifier).2.filter
          Event.isSendOnRequestTopic).length = 1
      ∧ (RequestDataFromHash hdrRes hash).2.filter Event.isRead = []
      ∧ (RequestDataFromNonce hdrRes nonce).2.filter Event.isRead = []
      ∧ (RequestDataFromEpoch hdrRes identifier).2.filter Event.isRead = []
      ∧ (RequestDataFromNonce demoResolver 42).2 =
          [.ToByteSlice 42,
           .SendOnRequestTopic ⟨.NonceType, some [0, 0, 0, 0, 0, 0, 0, 42]⟩] := by
  refine ⟨rfl, rfl, rfl, ?_, ?_, ?_, ?_, ?_, ?_, ?_⟩
  · simp [RequestDataFromHash, Event.isSendOnRequestTopic]
  · simp [RequestDataFromNonce, Event.isSendOnRequestTopic]
  · simp [RequestDataFromEpoch, Event.isSendOnRequestTopic]
  · simp [RequestDataFromHash, Event.isRead, Event.isHeadersRead, Event.isHdrStorageRead,
      Event.isHdrNoncesStorageRead, Event.isHdrNoncesRead]
  · simp [RequestDataFromNonce, Event.isRead, Event.isHeadersRead, Event.isHdrStorageRead,
      Event.isHdrNoncesStorageRead, Event.isHdrNoncesRead]
  · simp [RequestDataFromEpoch, Event.isRead, Event.isHeadersRead, Event.isHdrStorageRead,
      Event.isHdrNoncesStorageRead, Event.isHdrNoncesRead]
  · decide

end Outbound

/-! ## The epoch handler -/

section EpochHandlerField

variable {Obj : Type}

/-- C17: `SetEpochHandler` with a nil handler returns `ErrNilEpochHandler` and
leaves the resolver as it was; with a handler `h` it returns nil and the
resolver differs from the old one in the field `epochHandler` only, which is
`h`; an unknown-epoch request on the resolver so obtained reads header
storage under `EpochStartIdentifier h.Epoch`. -/
theorem C17_SetEpochHandler_sets_only_the_handler (core : Core) (hdrRes : HeaderResolver Obj)
    (h : EpochHandler) (key : ByteSlice) :
    SetEpochHandler hdrRes none = (some .ErrNilEpochHandler, hdrRes)
      ∧ SetEpochHandler hdrRes (some h) =
          (none,
            { TopicResolverSender := hdrRes.TopicResolverSender
              headers := hdrRes.headers
              hdrNonces := hdrRes.hdrNonces
              hdrStorage := hdrRes.hdrStorage
              hdrNoncesStorage := hdrRes.hdrNoncesStorage
              marshalizer := hdrRes.marshalizer
              nonceConverter := hdrRes.nonceConverter
              epochHandler := h
              shardCoordinator := hdrRes.shardCoordinator
              antifloodHandler := hdrRes.antifloodHandler })
      ∧ (core.IsUnknownEpochIdentifier key = (true, none) →
          resolveHeaderFromEpoch core (SetEpochHandler hdrRes (some h)).2 key =
            (hdrRes.hdrStorage.Get (bytesOfString (core.EpochStartIdentifier h.Epoch)),
              [.Epoch, .hdrStorageGet (bytesOfString (core.EpochStartIdentifier h.Epoch))])) := by
  refine ⟨rfl, rfl, ?_⟩
  intro hMarker
  simp [resolveHeaderFromEpoch, hMarker, SetEpochHandler]

/-- C17 on the demo node: after the handler of epoch 0 is set, the marker `[255]`
is answered from the storage entry of `"E"` instead of that of `"E5"`; a nil
handler is refused. -/
theorem C17_SetEpochHandler_sets_only_the_handler_witness :
    (SetEpochHandler demoResolver none).1 = some .ErrNilEpochHandler
      ∧ demoCore.IsUnknownEpochIdentifier (some [255]) = (true, none)
      ∧ resolveHeaderFromEpoch demoCore (SetEpochHandler demoResolver (some ⟨0⟩)).2
          (some [255]) = ((some [60], none), [.Epoch, .hdrStorageGet (some [69])]) :=
  have h := C17_SetEpochHandler_sets_only_the_handler demoCore demoResolver ⟨0⟩ (some [255])
  ⟨by rw [h.1], by decide, h.2.2 (by decide)⟩

/-- C14, as the code has it: a resolver returned by `NewHeaderResolver` holds the
default epoch handler, also after a refused `SetEpochHandler`; an
unknown-epoch request on it asks that handler for the epoch and reads header
storage under `EpochStartIdentifier` of the epoch it reports; a request
whose key is not the marker does not ask the handler. -/
theorem C14_default_epoch_handler_keys_unknown_epoch (core : Core)
    (nilEpochHandler : EpochHandler)
    (senderResolver : Option TopicResolverSender) (headers : Option (Cacher Obj))
    (headersNonces : Option Uint64SyncMapCacher) (hdrStorage : Option Storer)
    (headersNoncesStorage : Option Storer) (marshalizer : Option (Marshalizer Obj))
    (nonceConverter : Option Uint64ByteSliceConverter) (shardCoordinator : Option Coordinator)
    (antifloodHandler : Option P2PAntifloodHandler) (hdrRes : HeaderResolver Obj)
    (key : ByteSlice)
    (hNew : NewHeaderResolver nilEpochHandler senderResolver headers headersNonces hdrStorage
      headersNoncesStorage marshalizer nonceConverter shardCoordinator antifloodHandler =
        .ok hdrRes) :
    hdrRes.epochHandler = nilEpochHandler
      ∧ (SetEpochHandler hdrRes none).2.epochHandler = nilEpochHandler
      ∧ (core.IsUnknownEpochIdentifier key = (true, none) →
          resolveHeaderFromEpoch core hdrRes key =
            (hdrRes.hdrStorage.Get
                (bytesOfString (core.EpochStartIdentifier nilEpochHandler.Epoch)),
              [.Epoch,
               .hdrStorageGet
                 (bytesOfString (core.EpochStartIdentifier nilEpochHandler.Epoch))]))
      ∧ (core.IsUnknownEpochIdentifier key = (false, none) →
          (resolveHeaderFromEpoch core hdrRes key).2.filter Event.isEpoch = []) := by
  have hHandler : hdrRes.epochHandler = nilEpochHandler := by
    unfold NewHeaderResolver at hNew
    repeat' split at hNew
    all_goals first
      | (cases hNew
         rfl)
      | cases hNew
  refine ⟨hHandler, ?_, ?_, ?_⟩
  · simpa [SetEpochHandler] using hHandler
  · intro hMarker
    simp [resolveHeaderFromEpoch, hMarker, hHandler]
  · intro hPlain
    simp [resolveHeaderFromEpoch, hPlain, Event.isEpoch]

/-- C14 on the demo node, built with a default handler that reports epoch 0: the
marker `[255]` is answered from the storage entry of `"E"`. -/
theorem C14_default_epoch_handler_keys_unknown_epoch_witness :
    resolveHeaderFromEpoch demoCore { demoResolver with epochHandler := ⟨0⟩ } (some [255]) =
      ((some [60], none), [.Epoch, .hdrStorageGet (some [69])]) :=
  (C14_default_epoch_handler_keys_unknown_epoch demoCore ⟨0⟩
    (some demoResolver.TopicResolverSender) (some demoResolver.headers)
    (some demoResolver.hdrNonces) (some demoResolver.hdrStorage)
    (some demoResolver.hdrNoncesStorage) (some demoResolver.marshalizer)
    (some demoResolver.nonceConverter) (some demoResolver.shardCoordinator)
    (some demoResolver.antifloodHandler) { demoResolver with epochHandler := ⟨0⟩ }
    (some [255]) rfl).2.2.1 (by decide)

/-- C14 as worded fails: the demo node is built by `NewHeaderResolver` with a
default handler that reports epoch 0 and `SetEpochHandler` is never called;
an `EpochType` request carrying the marker `[255]` is answered with the block
stored under `"E"`, the epoch-start identifier of the default handler's
epoch. -/
theorem C14_default_epoch_is_used_counterexample :
    NewHeaderResolver ⟨0⟩
        (some demoResolver.TopicResolverSender) (some demoResolver.headers)
        (some demoResolver.hdrNonces) (some demoResolver.hdrStorage)
        (some demoResolver.hdrNoncesStorage) (some demoResolver.marshalizer)
        (some demoResolver.nonceConverter) (some demoResolver.shardCoordinator)
        (some demoResolver.antifloodHandler) =
        .ok { demoResolver with epochHandler := ⟨0⟩ }
      ∧ demoCore.IsUnknownEpochIdentifier (some [255]) = (true, none)
      ∧ bytesOfString (demoCore.EpochStartIdentifier 0) = some [69]
      ∧ ProcessReceivedMessage demoCore { demoResolver with epochHandler := ⟨0⟩ }
          ⟨some [2, 255], "alice"⟩ "alice" =
          (none,
            [.CanProcessMessage ⟨some [2, 255], "alice"⟩ "alice",
             .CanProcessMessageOnTopic ⟨some [2, 255], "alice"⟩ "alice"
               "shardBlocks_0_REQUEST",
             .Unmarshal ⟨some [2, 255], "alice"⟩, .Epoch, .hdrStorageGet (some [69]),
             .Send (some [60]) "alice"]) :=
  ⟨rfl, by decide, by decide, by decide⟩

end EpochHandlerField

/-! ## The antiflood topic -/

section AntifloodTopic

variable {Obj : Type}

theorem resolveHeaderFromHash_no_topic_check (hdrRes : HeaderResolver Obj) (key : ByteSlice) :
    (resolveHeaderFromHash hdrRes key).2.filter Event.isTopicCheck = [] := by
  unfold resolveHeaderFromHash
  split
  · simp [Event.isTopicCheck]
  · split <;> simp [Event.isTopicCheck]

theorem resolveHeaderFromNonce_no_topic_check (hdrRes : HeaderResolver Obj) (key : ByteSlice) :
    (resolveHeaderFromNonce hdrRes key).2.filter Event.isTopicCheck = [] := by
  unfold resolveHeaderFromNonce
  split
  · simp [Event.isTopicCheck, resolveHeaderFromHash_no_topic_check]
  · split
    · simp [Event.isTopicCheck]
    · split <;>
        (dsimp only
         split <;> simp [Event.isTopicCheck, resolveHeaderFromHash_no_topic_check])

theorem resolveHeaderFromEpoch_no_topic_check (core : Core) (hdrRes : HeaderResolver Obj)
    (key : ByteSlice) :
    (resolveHeaderFromEpoch core hdrRes key).2.filter Event.isTopicCheck = [] := by
  unfold resolveHeaderFromEpoch
  split <;> simp [Event.isTopicCheck]

/-- Once the global check has passed, the call log holds one per-topic check, made
with the topic `topicNameForAntiflood` computes. -/
theorem ProcessReceivedMessage_topic_checks (core : Core) (hdrRes : HeaderResolver Obj)
    (message : MessageP2P) (fromConnectedPeer : PeerID)
    (hFlood : hdrRes.antifloodHandler.CanProcessMessage message fromConnectedPeer = none) :
    (ProcessReceivedMessage core hdrRes message fromConnectedPeer).2.filter
        Event.isTopicCheck =
      [.CanProcessMessageOnTopic message fromConnectedPeer (topicNameForAntiflood hdrRes)] := by
  have hParseTrace := parseReceivedMessage_trace hdrRes message
  unfold ProcessReceivedMessage
  simp only [hFlood]
  split
  · simp [Event.isTopicCheck]
  · split
    · rename_i hParse
      rw [hParse] at hParseTrace
      simp only at hParseTrace
      subst hParseTrace
      simp [Event.isTopicCheck]
    · rename_i rd t hParse
      rw [hParse] at hParseTrace
      simp only at hParseTrace
      subst hParseTrace
      have hQuiet : ∀ r : (ByteSlice × Option Error) × Trace Obj,
          (match rd.Kind with
            | .HashType => some (resolveHeaderFromHash hdrRes rd.Value)
            | .NonceType => some (resolveHeaderFromNonce hdrRes rd.Value)
            | .EpochType => some (resolveHeaderFromEpoch core hdrRes rd.Value)
            | .unknown _ => none) = some r →
          r.2.filter Event.isTopicCheck = [] := by
        intro r hr
        split at hr
        · cases hr
          exact resolveHeaderFromHash_no_topic_check hdrRes rd.Value
        · cases hr
          exact resolveHeaderFromNonce_no_topic_check hdrRes rd.Value
        · cases hr
          exact resolveHeaderFromEpoch_no_topic_check core hdrRes rd.Value
        · cases hr
      split
      · simp [Event.isTopicCheck]
      · rename_i hr
        have h := hQuiet _ hr
        simp only at h
        simp [List.filter_append, h, Event.isTopicCheck]
      · rename_i hr
        have h := hQuiet _ hr
        simp only at h
        simp [List.filter_append, h, Event.isTopicCheck]
      · rename_i hr
        have h := hQuiet _ hr
        simp only at h
        simp [List.filter_append, h, Event.isTopicCheck]

/-- C15: `topicNameForAntiflood` returns the prefix, then
`CommunicationIdentifier (SelfId)`, then `TopicRequestSuffix`; the prefix is
the shard-blocks one when `SelfId ≤ NumberOfShards` and the metachain-blocks
one otherwise, and the two differ; once the global check has passed, this is
the topic of the one per-topic check `ProcessReceivedMessage` makes. -/
theorem C15_topic_name_for_antiflood (core : Core) (hdrRes : HeaderResolver Obj)
    (message : MessageP2P) (fromConnectedPeer : PeerID) :
    topicNameForAntiflood hdrRes =
        (if hdrRes.shardCoordinator.SelfId ≤ hdrRes.shardCoordinator.NumberOfShards then
            ShardBlocksTopic
          else MetachainBlocksTopic) ++
          hdrRes.shardCoordinator.CommunicationIdentifier hdrRes.shardCoordinator.SelfId ++
          hdrRes.TopicResolverSender.TopicRequestSuffix
      ∧ ShardBlocksTopic ≠ MetachainBlocksTopic
      ∧ (hdrRes.antifloodHandler.CanProcessMessage message fromConnectedPeer = none →
          (ProcessReceivedMessage core hdrRes message fromConnectedPeer).2.filter
              Event.isTopicCheck =
            [.CanProcessMessageOnTopic message fromConnectedPeer
              (topicNameForAntiflood hdrRes)]) := by
  refine ⟨?_, by decide, ProcessReceivedMessage_topic_checks core hdrRes message
    fromConnectedPeer⟩
  unfold topicNameForAntiflood
  by_cases h : hdrRes.shardCoordinator.SelfId ≤ hdrRes.shardCoordinator.NumberOfShards
  · have h2 : ¬ hdrRes.shardCoordinator.SelfId > hdrRes.shardCoordinator.NumberOfShards :=
      Nat.not_lt.mpr h
    simp [h, h2]
  · have h2 : hdrRes.shardCoordinator.SelfId > hdrRes.shardCoordinator.NumberOfShards :=
      Nat.lt_of_not_le h
    simp [h, h2]

/-- C15 on the demo node (shard 0 of 2) and on a copy of it whose coordinator
reports shard id 3 with 2 shards. -/
theorem C15_topic_name_for_antiflood_witness :
    topicNameForAntiflood demoResolver = "shardBlocks_0_REQUEST"
      ∧ topicNameForAntiflood
          { demoResolver with
            shardCoordinator :=
              { SelfId := 3, NumberOfShards := 2, CommunicationIdentifier := fun _ => "_META" } } =
          "metachainBlocks_META_REQUEST"
      ∧ (ProcessReceivedMessage demoCore demoResolver ⟨some [0, 1], "alice"⟩ "bob").2.filter
          Event.isTopicCheck =
          [.CanProcessMessageOnTopic ⟨some [0, 1], "alice"⟩ "bob" "shardBlocks_0_REQUEST"] :=
  ⟨by
      rw [(C15_topic_name_for_antiflood demoCore demoResolver ⟨some [0, 1], "alice"⟩ "bob").1]
      decide,
    by decide,
    (C15_topic_name_for_antiflood demoCore demoResolver ⟨some [0, 1], "alice"⟩ "bob").2.2
      (by decide)⟩

end AntifloodTopic

/-! ## The nonce index and the converter -/

section NonceIndex

variable {Obj : Type}

/-- Scanning a table in which the target shard carries the hash `h`, and no other
hash, yields `h`. -/
theorem range_target_found (hdrRes : HeaderResolver Obj) (entry : ShardIdHashMap)
    (hash : ByteSlice) (h : List Nat)
    (hMem : (hdrRes.TopicResolverSender.TargetShardID, some h) ∈ entry)
    (hOnly : ∀ existingHash, (hdrRes.TopicResolverSender.TargetShardID, existingHash) ∈ entry →
      existingHash = some h) :
    ShardIdHashMap.Range entry (rangeBody hdrRes) hash = some h := by
  induction entry with
  | nil => simp at hMem
  | cons head rest ih =>
    obtain ⟨shardId, existingHash⟩ := head
    unfold ShardIdHashMap.Range
    by_cases hs : shardId = hdrRes.TopicResolverSender.TargetShardID
    · have hHash : existingHash = some h := hOnly existingHash (by simp [hs])
      simp [rangeBody, hs, hHash]
    · simp only [rangeBody, hs, if_false]
      have hMemRest : (hdrRes.TopicResolverSender.TargetShardID, some h) ∈ rest := by
        rcases List.mem_cons.mp hMem with hHead | hTail
        · exact absurd (congrArg Prod.fst hHead).symm hs
        · exact hTail
      exact ih hMemRest (fun e he => hOnly e (List.mem_cons_of_mem _ he))

/-- C16: when the nonce-hash storage yields no hash, the key decodes to nonce `n`,
and the index entry of `n` holds the non-empty hash `h` under the target
shard, `resolveHeaderFromNonce` returns what `resolveHeaderFromHash h`
returns, whatever the entry holds under other shard ids. -/
theorem C16_index_hash_of_target_shard (hdrRes : HeaderResolver Obj) (key : ByteSlice)
    (n : Nat) (entry : ShardIdHashMap) (h : List Nat) (err : Option Error)
    (hGet : hdrRes.hdrNoncesStorage.Get key = (none, err))
    (hNonce : hdrRes.nonceConverter.ToUint64 key = (n, none))
    (hIndex : hdrRes.hdrNonces.Get n = some entry)
    (hMem : (hdrRes.TopicResolverSender.TargetShardID, some h) ∈ entry)
    (hOnly : ∀ existingHash, (hdrRes.TopicResolverSender.TargetShardID, existingHash) ∈ entry →
      existingHash = some h)
    (hNonEmpty : h ≠ []) :
    resolveHeaderFromNonce hdrRes key =
      ((resolveHeaderFromHash hdrRes (some h)).1,
        [.hdrNoncesStorageGet key, .ToUint64 key, .hdrNoncesGet n] ++
          (resolveHeaderFromHash hdrRes (some h)).2) := by
  have hRange := range_target_found hdrRes entry none h hMem hOnly
  have hLen : len (some h) ≠ 0 := by
    simpa [len] using hNonEmpty
  simp [resolveHeaderFromNonce, hGet, hNonce, hIndex, hRange, hLen]

/-- C16 on the demo node: nonce 44 is not in the nonce store; its index entry
holds hash `[2]` for shard 1 and hash `[1]` for the target shard 0, and the
header cached under `[1]` is returned. -/
theorem C16_index_hash_of_target_shard_witness :
    resolveHeaderFromNonce
        { demoResolver with hdrNonces := { Get := fun _ => some [(1, some [2]), (0, some [1])] } }
        (some [0, 0, 0, 0, 0, 0, 0, 44]) =
      ((some [7, 7], none),
        [.hdrNoncesStorageGet (some [0, 0, 0, 0, 0, 0, 0, 44]),
         .ToUint64 (some [0, 0, 0, 0, 0, 0, 0, 44]), .hdrNoncesGet 44,
         .headersPeek (some [1]), .Marshal 7]) :=
  C16_index_hash_of_target_shard
    { demoResolver with hdrNonces := { Get := fun _ => some [(1, some [2]), (0, some [1])] } }
    (some [0, 0, 0, 0, 0, 0, 0, 44]) 44 [(1, some [2]), (0, some [1])] [1]
    (some (.other "key not found")) (by decide) (by decide) rfl (by decide)
    (by
      intro existingHash hMem
      simp only [List.mem_cons, Prod.mk.injEq, List.mem_nil_iff, or_false] at hMem
      rcases hMem with ⟨h1, _⟩ | ⟨_, h2⟩
      · exact absurd h1 (by decide)
      · exact h2)
    (by decide)

end NonceIndex

/-! ## Errors of the request by nonce -/

section NonceErrors

variable {Obj : Type}

theorem resolveHeaderFromHash_trace_length (hdrRes : HeaderResolver Obj) (key : ByteSlice) :
    (resolveHeaderFromHash hdrRes key).2.length = 2 := by
  unfold resolveHeaderFromHash
  split
  · rfl
  · split <;> rfl

theorem resolveHeaderFromHash_no_ToUint64 (hdrRes : HeaderResolver Obj) (key : ByteSlice) :
    (resolveHeaderFromHash hdrRes key).2.filter Event.isToUint64 = [] := by
  unfold resolveHeaderFromHash
  split
  · simp [Event.isToUint64]
  · split <;> simp [Event.isToUint64]

/-- The error of `resolveHeaderFromHash` is one that header storage or the
marshalizer returned. -/
theorem resolveHeaderFromHash_error_origin (hdrRes : HeaderResolver Obj) (key : ByteSlice)
    (e : Error) (hErr : (resolveHeaderFromHash hdrRes key).1.2 = some e) :
    (∃ k, (hdrRes.hdrStorage.Get k).2 = some e) ∨
      (∃ v, (hdrRes.marshalizer.Marshal v).2 = some e) := by
  unfold resolveHeaderFromHash at hErr
  split at hErr
  · exact Or.inl ⟨key, hErr⟩
  · rename_i value _
    split at hErr
    · rename_i err hM
      simp only [Option.some.injEq] at hErr
      subst hErr
      exact Or.inr ⟨value, by rw [hM]⟩
    · simp at hErr

/-- C18: `resolveHeaderFromNonce` returns `ErrInvalidNonceByteSlice` right after
the converter call exactly when the nonce-hash storage yields a nil hash and
`ToUint64` fails; provided header storage and the marshalizer never return
that error themselves, the returned error is `ErrInvalidNonceByteSlice`
exactly in that case.  When the storage yields a hash the converter is not
called and the hash is resolved.  Erasing the error the nonce-hash storage
returns changes nothing. -/
theorem C18_invalid_nonce_error (hdrRes : HeaderResolver Obj) (key : ByteSlice) :
    (resolveHeaderFromNonce hdrRes key =
          ((none, some .ErrInvalidNonceByteSlice), [.hdrNoncesStorageGet key, .ToUint64 key]) ↔
        ((hdrRes.hdrNoncesStorage.Get key).1 = none ∧
          (hdrRes.nonceConverter.ToUint64 key).2 ≠ none))
      ∧ ((∀ k, (hdrRes.hdrStorage.Get k).2 ≠ some .ErrInvalidNonceByteSlice) →
          (∀ v, (hdrRes.marshalizer.Marshal v).2 ≠ some .ErrInvalidNonceByteSlice) →
          ((resolveHeaderFromNonce hdrRes key).1.2 = some .ErrInvalidNonceByteSlice ↔
            ((hdrRes.hdrNoncesStorage.Get key).1 = none ∧
              (hdrRes.nonceConverter.ToUint64 key).2 ≠ none)))
      ∧ (∀ h, (hdrRes.hdrNoncesStorage.Get key).1 = some h →
          resolveHeaderFromNonce hdrRes key =
              ((resolveHeaderFromHash hdrRes (some h)).1,
                .hdrNoncesStorageGet key :: (resolveHeaderFromHash hdrRes (some h)).2)
            ∧ (resolveHeaderFromNonce hdrRes key).2.filter Event.isToUint64 = [])
      ∧ resolveHeaderFromNonce
          { hdrRes with
            hdrNoncesStorage := { Get := fun k => ((hdrRes.hdrNoncesStorage.Get k).1, none) } }
          key = resolveHeaderFromNonce hdrRes key := by
  have hFail : ((hdrRes.hdrNoncesStorage.Get key).1 = none ∧
      (hdrRes.nonceConverter.ToUint64 key).2 ≠ none) →
      resolveHeaderFromNonce hdrRes key =
        ((none, some .ErrInvalidNonceByteSlice),
          [.hdrNoncesStorageGet key, .ToUint64 key]) := by
    rintro ⟨hNil, hConv⟩
    unfold resolveHeaderFromNonce
    split
    · rename_i hG
      rw [hG] at hNil
      simp at hNil
    · split
      · rfl
      · rename_i hC
        rw [hC] at hConv
        simp at hConv
  have hHash : ∀ h, (hdrRes.hdrNoncesStorage.Get key).1 = some h →
      resolveHeaderFromNonce hdrRes key =
        ((resolveHeaderFromHash hdrRes (some h)).1,
          .hdrNoncesStorageGet key :: (resolveHeaderFromHash hdrRes (some h)).2) := by
    intro h hSome
    unfold resolveHeaderFromNonce
    split
    · rename_i hG
      rw [hG] at hSome
      simp only [Option.some.injEq] at hSome
      subst hSome
      rfl
    · rename_i hG
      rw [hG] at hSome
      simp at hSome
  refine ⟨⟨?_, hFail⟩, ?_, ?_, ?_⟩
  · intro hRun
    have hLen := congrArg (fun r => r.2.length) hRun
    simp only [List.length_cons, List.length_nil] at hLen
    unfold resolveHeaderFromNonce at hLen
    split at hLen
    · simp [resolveHeaderFromHash_trace_length] at hLen
    · rename_i hG
      split at hLen
      · rename_i hC
        rw [hG, hC]
        simp
      · dsimp only at hLen
        split at hLen <;> simp at hLen
  · intro hStore hMarshal
    refine ⟨?_, fun hc => by rw [hFail hc]⟩
    intro hErr
    unfold resolveHeaderFromNonce at hErr
    split at hErr
    · rcases resolveHeaderFromHash_error_origin hdrRes _ _ hErr with ⟨k, hk⟩ | ⟨v, hv⟩
      · exact absurd hk (hStore k)
      · exact absurd hv (hMarshal v)
    · rename_i hG
      split at hErr
      · rename_i hC
        rw [hG, hC]
        simp
      · dsimp only at hErr
        split at hErr
        · simp at hErr
        · rcases resolveHeaderFromHash_error_origin hdrRes _ _ hErr with ⟨k, hk⟩ | ⟨v, hv⟩
          · exact absurd hk (hStore k)
          · exact absurd hv (hMarshal v)
  · intro h hSome
    refine ⟨hHash h hSome, ?_⟩
    rw [hHash h hSome]
    simp [Event.isToUint64, resolveHeaderFromHash_no_ToUint64]
  · unfold resolveHeaderFromNonce
    rcases hG : hdrRes.hdrNoncesStorage.Get key with ⟨hash, err⟩
    cases hash <;> simp only [hG] <;> rfl

/-- C18 on the demo node: the 2-byte key `[0, 0]` is neither in the nonce store
nor a nonce encoding, so the request fails after the converter call; on a
node whose nonce store answers every key with hash `[2]` and an error, the
same key is resolved to the stored header. -/
theorem C18_invalid_nonce_error_witness :
    resolveHeaderFromNonce demoResolver (some [0, 0]) =
        ((none, some .ErrInvalidNonceByteSlice),
          [.hdrNoncesStorageGet (some [0, 0]), .ToUint64 (some [0, 0])])
      ∧ resolveHeaderFromNonce
          { demoResolver with
            hdrNoncesStorage := { Get := fun _ => (some [2], some (.other "disk failure")) } }
          (some [0, 0]) =
          ((some [20, 21], none),
            [.hdrNoncesStorageGet (some [0, 0]), .headersPeek (some [2]),
             .hdrStorageGet (some [2])]) :=
  ⟨(C18_invalid_nonce_error demoResolver (some [0, 0])).1.mpr ⟨by decide, by decide⟩,
    ((C18_invalid_nonce_error
      { demoResolver with
        hdrNoncesStorage := { Get := fun _ => (some [2], some (.other "disk failure")) } }
      (some [0, 0])).2.2.1 [2] rfl).1⟩

end NonceErrors

/-! ## The container the factory fills -/

section FactoryLemmas

variable {PLC S R : Type}

theorem ResolversContainer.Get_eq_ok_iff (c : ResolversContainer R) (key : String) (r : R) :
    c.Get key = .ok r ↔ c.objects.lookup key = some r := by
  unfold ResolversContainer.Get
  split
  · rename_i r0 h
    rw [h]
    constructor
    · intro hr
      cases hr
      rfl
    · intro hr
      cases hr
      rfl
  · rename_i h
    rw [h]
    constructor
    · intro hr
      cases hr
    · intro hr
      cases hr

/-- Adding never changes what an existing key maps to. -/
theorem ResolversContainer.Get_Add_preserved (c : ResolversContainer R) (key : String)
    (resolver : R) (k : String) (r : R) (hGet : c.Get k = .ok r) :
    (c.Add key resolver).2.Get k = .ok r := by
  rw [ResolversContainer.Get_eq_ok_iff] at hGet ⊢
  unfold ResolversContainer.Add
  split
  · exact hGet
  · rename_i hNone
    have hne : (k == key) = false := by
      by_cases hk : k = key
      · subst hk
        rw [hNone] at hGet
        cases hGet
      · simpa using hk
    simp [List.lookup, hne, hGet]

/-- A successful `Add` makes the key map to the resolver added. -/
theorem ResolversContainer.Get_Add_self (c : ResolversContainer R) (key : String)
    (resolver : R) (hAdd : (c.Add key resolver).1 = none) :
    (c.Add key resolver).2.Get key = .ok resolver := by
  rw [ResolversContainer.Get_eq_ok_iff]
  unfold ResolversContainer.Add at hAdd ⊢
  split
  · rename_i h
    rw [h] at hAdd
    simp at hAdd
  · simp [List.lookup]

theorem ResolversContainer.Get_addEach_preserved (c : ResolversContainer R)
    (keys : List String) (resolvers : List R) (k : String) (r : R)
    (hGet : c.Get k = .ok r) :
    (c.addEach keys resolvers).2.Get k = .ok r := by
  induction keys generalizing c resolvers with
  | nil => simpa [ResolversContainer.addEach] using hGet
  | cons key keys ih =>
    cases resolvers with
    | nil => simpa [ResolversContainer.addEach] using hGet
    | cons resolver resolvers =>
      have hStep := ResolversContainer.Get_Add_preserved c key resolver k r hGet
      unfold ResolversContainer.addEach
      split
      · rename_i hAdd
        rw [hAdd] at hStep
        exact hStep
      · rename_i hAdd
        rw [hAdd] at hStep
        exact ih _ _ hStep

theorem ResolversContainer.Get_AddMultiple_preserved (c : ResolversContainer R)
    (keys : List String) (resolvers : List R) (k : String) (r : R)
    (hGet : c.Get k = .ok r) :
    (c.AddMultiple keys resolvers).2.Get k = .ok r := by
  unfold ResolversContainer.AddMultiple
  split
  · exact hGet
  · exact ResolversContainer.Get_addEach_preserved c keys resolvers k r hGet

theorem andThen_none (r : Option Error × FactoryState R)
    (next : FactoryState R → Option Error × FactoryState R) (st : FactoryState R)
    (h : andThen r next = (none, st)) :
    ∃ mid, r = (none, mid) ∧ next mid = (none, st) := by
  unfold andThen at h
  split at h
  · cases h
  · rename_i mid
    exact ⟨mid, rfl, h⟩

theorem senderCalls_append (xs ys : List (FactoryCall R)) :
    senderCalls (xs ++ ys) = senderCalls xs ++ senderCalls ys := by
  induction xs with
  | nil => rfl
  | cons x xs ih =>
    cases x <;> simp [senderCalls, ih]

theorem generateMiniBlocksResolvers_preserves (srcf : shardResolversContainerFactory PLC S R)
    (st : FactoryState R) (k : String) (r : R) (hGet : st.container.Get k = .ok r) :
    (generateMiniBlocksResolvers srcf st).2.container.Get k = .ok r := by
  unfold generateMiniBlocksResolvers
  split
  · exact hGet
  · exact ResolversContainer.Get_AddMultiple_preserved _ _ _ k r hGet

theorem generateMiniBlocksResolvers_calls (srcf : shardResolversContainerFactory PLC S R)
    (st : FactoryState R) :
    (generateMiniBlocksResolvers srcf st).2.calls = st.calls := by
  unfold generateMiniBlocksResolvers
  split <;> rfl

theorem generateTrieNodesResolvers_preserves (srcf : shardResolversContainerFactory PLC S R)
    (st : FactoryState R) (k : String) (r : R) (hGet : st.container.Get k = .ok r) :
    (generateTrieNodesResolvers srcf st).2.container.Get k = .ok r := by
  unfold generateTrieNodesResolvers
  dsimp only
  split
  · exact hGet
  · split
    · exact hGet
    · exact ResolversContainer.Get_AddMultiple_preserved _ _ _ k r hGet

theorem generateTrieNodesResolvers_calls (srcf : shardResolversContainerFactory PLC S R)
    (st : FactoryState R) :
    (generateTrieNodesResolvers srcf st).2.calls = st.calls := by
  unfold generateTrieNodesResolvers
  dsimp only
  split
  · rfl
  · split <;> rfl

theorem generatePeerChBlockBodyResolvers_preserves
    (srcf : shardResolversContainerFactory PLC S R) (st : FactoryState R) (k : String) (r : R)
    (hGet : st.container.Get k = .ok r) :
    (generatePeerChBlockBodyResolvers srcf st).2.container.Get k = .ok r := by
  unfold generatePeerChBlockBodyResolvers
  dsimp only
  repeat' split
  all_goals first
    | exact hGet
    | exact ResolversContainer.Get_Add_preserved _ _ _ k r hGet

theorem generateMetablockHeaderResolvers_preserves
    (srcf : shardResolversContainerFactory PLC S R) (st : FactoryState R) (k : String) (r : R)
    (hGet : st.container.Get k = .ok r) :
    (generateMetablockHeaderResolvers srcf st).2.container.Get k = .ok r := by
  unfold generateMetablockHeaderResolvers
  dsimp only
  repeat' split
  all_goals first
    | exact hGet
    | exact ResolversContainer.Get_Add_preserved _ _ _ k r hGet

theorem generatePeerChBlockBodyResolvers_calls
    (srcf : shardResolversContainerFactory PLC S R) (st : FactoryState R)
    (call : FactoryCall R) (hCall : call ∈ st.calls) :
    call ∈ (generatePeerChBlockBodyResolvers srcf st).2.calls := by
  unfold generatePeerChBlockBodyResolvers
  dsimp only
  repeat' split
  all_goals simp [FactoryState.record, hCall]

theorem generateMetablockHeaderResolvers_calls
    (srcf : shardResolversContainerFactory PLC S R) (st : FactoryState R)
    (call : FactoryCall R) (hCall : call ∈ st.calls) :
    call ∈ (generateMetablockHeaderResolvers srcf st).2.calls := by
  unfold generateMetablockHeaderResolvers
  dsimp only
  repeat' split
  all_goals simp [FactoryState.record, hCall]

/-- What a successful `generateHeaderResolvers` has done. -/
theorem generateHeaderResolvers_ok (srcf : shardResolversContainerFactory PLC S R)
    (st st1 : FactoryState R) (h : generateHeaderResolvers srcf st = (none, st1)) :
    ∃ peerListCreator resolverSender resolver,
      srcf.ext.NewDiffPeerListCreator
          (ShardBlocksTopic ++
            srcf.shardCoordinator.CommunicationIdentifier srcf.ext.MetachainShardId)
          emptyExcludePeersOnTopic = .ok peerListCreator
        ∧ srcf.ext.NewTopicResolverSender
          (ShardBlocksTopic ++
            srcf.shardCoordinator.CommunicationIdentifier srcf.ext.MetachainShardId)
          peerListCreator srcf.shardCoordinator.SelfId = .ok resolverSender
        ∧ srcf.ext.NewHeaderResolver resolverSender .Headers .BlockHeaderUnit
          (.ShardHdrNonceHashDataUnit srcf.shardCoordinator.SelfId) = .ok resolver
        ∧ st1.container.Get
          (ShardBlocksTopic ++
            srcf.shardCoordinator.CommunicationIdentifier srcf.ext.MetachainShardId) =
            .ok resolver
        ∧ FactoryCall.createTopicAndAssignHandler
            (ShardBlocksTopic ++
              srcf.shardCoordinator.CommunicationIdentifier srcf.ext.MetachainShardId ++
              srcf.ext.TopicRequestSuffix resolverSender) resolver false ∈ st1.calls := by
  unfold generateHeaderResolvers at h
  dsimp only at h
  split at h
  · cases h
  · rename_i peerListCreator hP
    split at h
    · cases h
    · rename_i resolverSender hS
      split at h
      · cases h
      · rename_i resolver hR
        split at h
        · cases h
        · have hAdd := congrArg Prod.fst h
          have hState := congrArg Prod.snd h
          dsimp only at hAdd hState
          refine ⟨peerListCreator, resolverSender, resolver, hP, hS, hR, ?_, ?_⟩
          · rw [← hState]
            exact ResolversContainer.Get_Add_self _ _ _ hAdd
          · rw [← hState]
            simp [FactoryState.record]

/-- A successful `Create` went through a successful `generateHeaderResolvers`, and
nothing that step put into the container or the log was lost afterwards. -/
theorem Create_ok_after_headers (srcf : shardResolversContainerFactory PLC S R)
    (st0 : FactoryState R) (container : ResolversContainer R)
    (hCreate : (Create srcf st0).1 = .ok container) :
    ∃ st3 st4, generateHeaderResolvers srcf st3 = (none, st4)
      ∧ (∀ k r, st4.container.Get k = .ok r → container.Get k = .ok r)
      ∧ (∀ call, call ∈ st4.calls → call ∈ (Create srcf st0).2.calls) := by
  unfold Create at hCreate ⊢
  dsimp only at hCreate ⊢
  split at hCreate
  · cases hCreate
  · rename_i st8 h8
    cases hCreate
    dsimp only
    obtain ⟨st7, h7, hTrie⟩ := andThen_none _ _ _ h8
    obtain ⟨st6, h6, hMeta⟩ := andThen_none _ _ _ h7
    obtain ⟨st5, h5, hPeer⟩ := andThen_none _ _ _ h6
    obtain ⟨st4, h4, hMini⟩ := andThen_none _ _ _ h5
    obtain ⟨st3, _, hHdr⟩ := andThen_none _ _ _ h4
    have e5 : st5 = (generateMiniBlocksResolvers srcf st4).2 := by rw [hMini]
    have e6 : st6 = (generatePeerChBlockBodyResolvers srcf st5).2 := by rw [hPeer]
    have e7 : st7 = (generateMetablockHeaderResolvers srcf st6).2 := by rw [hMeta]
    have e8 : st8 = (generateTrieNodesResolvers srcf st7).2 := by rw [hTrie]
    refine ⟨st3, st4, hHdr, ?_, ?_⟩
    · intro k r hGet
      rw [e8]
      apply generateTrieNodesResolvers_preserves
      rw [e7]
      apply generateMetablockHeaderResolvers_preserves
      rw [e6]
      apply generatePeerChBlockBodyResolvers_preserves
      rw [e5]
      exact generateMiniBlocksResolvers_preserves srcf st4 k r hGet
    · intro call hCall
      rw [e8, generateTrieNodesResolvers_calls, e7]
      apply generateMetablockHeaderResolvers_calls
      rw [e6]
      apply generatePeerChBlockBodyResolvers_calls
      rw [e5, generateMiniBlocksResolvers_calls]
      exact hCall

end FactoryLemmas

/-! ## Keys and shard ids the factory uses -/

section FactoryClaims

variable {PLC S R : Type}

/-- C12, as the code has it: after a successful `Create` on a node whose
communication identifier towards the metachain is `_0_META` and whose
senders have the request suffix `_REQUEST`, the key `shardBlocks_0_META` of
the returned container maps to the header resolver that
`generateHeaderResolvers` built, and `shardBlocks_0_META_REQUEST` is the topic
under which that resolver was handed to `createTopicAndAssignHandler`. -/
theorem C12_header_resolver_under_data_topic (srcf : shardResolversContainerFactory PLC S R)
    (st0 : FactoryState R) (container : ResolversContainer R)
    (hCreate : (Create srcf st0).1 = .ok container)
    (hComm : srcf.shardCoordinator.CommunicationIdentifier srcf.ext.MetachainShardId =
      "_0_META")
    (hSuffix : ∀ sender, srcf.ext.TopicRequestSuffix sender = "_REQUEST") :
    ∃ peerListCreator resolverSender resolver,
      srcf.ext.NewDiffPeerListCreator "shardBlocks_0_META" emptyExcludePeersOnTopic =
          .ok peerListCreator
        ∧ srcf.ext.NewTopicResolverSender "shardBlocks_0_META" peerListCreator
          srcf.shardCoordinator.SelfId = .ok resolverSender
        ∧ srcf.ext.NewHeaderResolver resolverSender .Headers .BlockHeaderUnit
          (.ShardHdrNonceHashDataUnit srcf.shardCoordinator.SelfId) = .ok resolver
        ∧ container.Get "shardBlocks_0_META" = .ok resolver
        ∧ FactoryCall.createTopicAndAssignHandler "shardBlocks_0_META_REQUEST" resolver false ∈
            (Create srcf st0).2.calls := by
  obtain ⟨st3, st4, hHdr, hKeep, hCalls⟩ := Create_ok_after_headers srcf st0 container hCreate
  obtain ⟨peerListCreator, resolverSender, resolver, hP, hS, hR, hGet, hReg⟩ :=
    generateHeaderResolvers_ok srcf st3 st4 hHdr
  have hTopic : ShardBlocksTopic ++ "_0_META" = "shardBlocks_0_META" := by decide
  have hRequest : "shardBlocks_0_META" ++ "_REQUEST" = "shardBlocks_0_META_REQUEST" := by
    decide
  rw [hComm, hTopic] at hP hS hGet hReg
  rw [hSuffix, hRequest] at hReg
  exact ⟨peerListCreator, resolverSender, resolver, hP, hS, hR, hKeep _ _ hGet,
    hCalls _ hReg⟩

/-- C12 on the demo factory (shard 0 of 2). -/
theorem C12_header_resolver_under_data_topic_witness :
    (Create demoFactory emptyFactoryState).1 = .ok demoContainer
      ∧ ∃ peerListCreator resolverSender resolver,
        demoFactory.ext.NewDiffPeerListCreator "shardBlocks_0_META" emptyExcludePeersOnTopic =
            .ok peerListCreator
          ∧ demoFactory.ext.NewTopicResolverSender "shardBlocks_0_META" peerListCreator
            demoFactory.shardCoordinator.SelfId = .ok resolverSender
          ∧ demoFactory.ext.NewHeaderResolver resolverSender .Headers .BlockHeaderUnit
            (.ShardHdrNonceHashDataUnit demoFactory.shardCoordinator.SelfId) = .ok resolver
          ∧ demoContainer.Get "shardBlocks_0_META" = .ok resolver
          ∧ FactoryCall.createTopicAndAssignHandler "shardBlocks_0_META_REQUEST" resolver
              false ∈ (Create demoFactory emptyFactoryState).2.calls :=
  ⟨rfl, C12_header_resolver_under_data_topic demoFactory emptyFactoryState demoContainer rfl
    (by decide) (fun _ => rfl)⟩

/-- C12 as worded fails: the demo factory is shard 0 of a 2-shard network, with
`_0_META` as communication identifier towards the metachain and `_REQUEST` as
request suffix; `Create` succeeds, and the returned container has no entry
under `shardBlocks_0_META_REQUEST`; the header resolver is under
`shardBlocks_0_META`. -/
theorem C12_request_topic_is_no_container_key_counterexample :
    demoFactory.shardCoordinator.SelfId = 0
      ∧ demoFactory.shardCoordinator.NumberOfShards = 2
      ∧ demoFactory.shardCoordinator.CommunicationIdentifier demoFactory.ext.MetachainShardId =
          "_0_META"
      ∧ demoFactory.ext.TopicRequestSuffix ⟨"shardBlocks_0_META", 0⟩ = "_REQUEST"
      ∧ (Create demoFactory emptyFactoryState).1 = .ok demoContainer
      ∧ demoContainer.Get "shardBlocks_0_META_REQUEST" = .error .NotFound
      ∧ demoContainer.Get "shardBlocks_0_META" = .ok "HeaderResolver:shardBlocks_0_META" :=
  ⟨rfl, rfl, by decide, rfl, rfl, rfl, rfl⟩

/-- C13, as the code has it: once the peer list creator is built, the shard
header step and the peer-change block body step call
`NewTopicResolverSender` once, with `shardCoordinator.SelfId` as shard id;
the metachain header step calls it once, with `MetachainShardId` as shard
id. -/
theorem C13_sender_shard_ids (srcf : shardResolversContainerFactory PLC S R)
    (st : FactoryState R) :
    (∀ peerListCreator,
        srcf.ext.NewDiffPeerListCreator
            (ShardBlocksTopic ++
              srcf.shardCoordinator.CommunicationIdentifier srcf.ext.MetachainShardId)
            emptyExcludePeersOnTopic = .ok peerListCreator →
        senderCalls (generateHeaderResolvers srcf st).2.calls =
          senderCalls st.calls ++
            [(ShardBlocksTopic ++
                srcf.shardCoordinator.CommunicationIdentifier srcf.ext.MetachainShardId,
              srcf.shardCoordinator.SelfId)])
      ∧ (∀ peerListCreator,
        srcf.ext.NewDiffPeerListCreator
            (srcf.ext.PeerChBodyTopic ++
              srcf.shardCoordinator.CommunicationIdentifier srcf.shardCoordinator.SelfId)
            emptyExcludePeersOnTopic = .ok peerListCreator →
        senderCalls (generatePeerChBlockBodyResolvers srcf st).2.calls =
          senderCalls st.calls ++
            [(srcf.ext.PeerChBodyTopic ++
                srcf.shardCoordinator.CommunicationIdentifier srcf.shardCoordinator.SelfId,
              srcf.shardCoordinator.SelfId)])
      ∧ (∀ peerListCreator,
        srcf.ext.NewDiffPeerListCreator
            (ShardBlocksTopic ++
              srcf.shardCoordinator.CommunicationIdentifier srcf.ext.MetachainShardId)
            (srcf.ext.TransactionTopic ++
              srcf.shardCoordinator.CommunicationIdentifier srcf.shardCoordinator.SelfId) =
            .ok peerListCreator →
        senderCalls (generateMetablockHeaderResolvers srcf st).2.calls =
          senderCalls st.calls ++ [(MetachainBlocksTopic, srcf.ext.MetachainShardId)]) := by
  refine ⟨?_, ?_, ?_⟩
  · intro peerListCreator hP
    unfold generateHeaderResolvers
    simp only [hP]
    repeat' split
    all_goals simp [FactoryState.record, senderCalls_append, senderCalls]
  · intro peerListCreator hP
    unfold generatePeerChBlockBodyResolvers
    simp only [hP]
    repeat' split
    all_goals simp [FactoryState.record, senderCalls_append, senderCalls]
  · intro peerListCreator hP
    unfold generateMetablockHeaderResolvers
    simp only [hP]
    repeat' split
    all_goals simp [FactoryState.record, senderCalls_append, senderCalls]

/-- C13 on the demo factory, shard 0 with the metachain as shard `4294967295`. -/
theorem C13_sender_shard_ids_witness :
    senderCalls (generateHeaderResolvers demoFactory emptyFactoryState).2.calls =
        [("shardBlocks_0_META", 0)]
      ∧ senderCalls (generatePeerChBlockBodyResolvers demoFactory emptyFactoryState).2.calls =
        [("peerChangeBlockBodies_0", 0)]
      ∧ senderCalls (generateMetablockHeaderResolvers demoFactory emptyFactoryState).2.calls =
        [("metachainBlocks", 4294967295)] :=
  have h := C13_sender_shard_ids demoFactory emptyFactoryState
  ⟨by rw [h.1 _ rfl]; decide, by rw [h.2.1 _ rfl]; decide, by rw [h.2.2 _ rfl]; decide⟩

/-- C13 as worded fails: on the demo factory, whose own shard id is 0, the
metachain header step succeeds and the shard id it passes to
`NewTopicResolverSender` is `4294967295`, the metachain shard id. -/
theorem C13_metachain_sender_shard_id_counterexample :
    demoFactory.shardCoordinator.SelfId = 0
      ∧ (generateMetablockHeaderResolvers demoFactory emptyFactoryState).1 = none
      ∧ senderCalls (generateMetablockHeaderResolvers demoFactory emptyFactoryState).2.calls =
          [("metachainBlocks", 4294967295)] :=
  ⟨rfl, by decide, by decide⟩

end FactoryClaims

end ElrondGo
